import Mathlib

/-!
# CG: a two-player aerial combat game (`CPlayer.cpp`, `CPlayer.h`, `CGameApp.cpp`)

A shallow embedding of the gameplay core of the repository and the
properties of its natural-language specification.

Modelling conventions.

* `Vec2` components are `double` in the program.  They are modelled as
  exact rationals: every property below is about comparisons, sums with the
  constant `1.1` and assignments, never about rounding.
* `int` and `ULONG` values are modelled as unbounded `Int` / `Nat`.
  The only arithmetic on them is `w / 2`, `--lives`, `cooldown--` (guarded
  by `> 1`) and `frame++` (bounded by the frame count).
* A `double` assigned to a `LONG` field of a `RECT` is truncated toward zero
  and must fit 32 bits (`toLONG`); a value that does not fit becomes the
  least `LONG`, as the conversion of the compiled program gives it.
* Rendering, sound and window calls have no effect on the modelled state and
  are left out; the sizes of the bitmaps loaded by `new Sprite(file, ..)` are
  a parameter `dims : String → Int × Int`.
* A message box is taken to return without any other window message being
  dispatched while it is open.
* The file `save.txt` is a list of characters, written and read by a model of
  the formatted stream operators of the C++ library.
-/

namespace CG

/-! ## Data model -/

/-- Two-dimensional vector (`Vec2`), default-constructed as `(0, 0)`. -/
structure Vec2 where
  x : ℚ
  y : ℚ
deriving DecidableEq

/-- The Win32 `RECT` of four `LONG`s. -/
structure RECT where
  left : Int
  top : Int
  right : Int
  bottom : Int
deriving DecidableEq

/-- Class `Sprite`: the bitmap it was loaded from, the size of that bitmap
(`width()`, `height()`), and the public `mPosition`, `mVelocity`. -/
structure Sprite where
  image : String
  bmWidth : Int
  bmHeight : Int
  mPosition : Vec2
  mVelocity : Vec2
deriving DecidableEq

/-- Class `AnimatedSprite`: the bitmap, position, number of frames and the current frame. -/
structure AnimatedSprite where
  image : String
  mPosition : Vec2
  mFrameCount : Int
  mCurrentFrame : Int
deriving DecidableEq

/-- Enumeration `CPlayer::DIRECTION`. -/
inductive DIRECTION where
  | DIR_FORWARD
  | DIR_BACKWARD
  | DIR_LEFT
  | DIR_RIGHT
deriving DecidableEq, Repr

/-- Numeric value of a `DIRECTION` enumerator (`1, 2, 4, 8`). -/
def DIRECTION.val : DIRECTION → Nat
  | .DIR_FORWARD => 1
  | .DIR_BACKWARD => 2
  | .DIR_LEFT => 4
  | .DIR_RIGHT => 8

/-- Enumeration `CPlayer::ESpeedStates`. -/
inductive ESpeedStates where
  | SPEED_START
  | SPEED_STOP
deriving DecidableEq, Repr

/-- State of a `CPlayer`.

The C++ object holds a list `bullets` of sprite pointers and a pointer
`bullet`.  The constructor points `bullet` at a sprite of its own that is
never pushed; `Shoot`, the only other writer, points it at the sprite it
pushes at the back of `bullets`, and nothing is ever removed from the list.
So `bullet` designates the back of `bullets` when the list is non-empty and
the constructor's sprite otherwise: the field `bullet` below is that
constructor sprite and `CPlayer.curBullet` is the sprite the pointer
designates. -/
structure CPlayer where
  rotateDirection : DIRECTION
  playerLives : Int
  fireCooldown : Int
  m_pSprite : Sprite
  bullet : Sprite
  bullets : List Sprite
  m_eSpeedState : ESpeedStates
  m_fTimer : ℚ
  m_bExplosion : Bool
  m_pExplosionSprite : AnimatedSprite
  m_iExplosionFrame : Int
deriving DecidableEq

/-- The sprite the C++ pointer `bullet` designates. -/
def CPlayer.curBullet (p : CPlayer) : Sprite :=
  (p.bullets.getLast?).getD p.bullet

/-- Method `Sprite::width()`. -/
def Sprite.width (s : Sprite) : Int := s.bmWidth

/-- Method `Sprite::height()`. -/
def Sprite.height (s : Sprite) : Int := s.bmHeight

/-- Division `int / int` of C++: the quotient truncated toward zero. -/
def cdiv (a b : Int) : Int := Int.tdiv a b

/-- Least value of a 32-bit `LONG`. -/
def LONG_MIN : Int := -2147483648

/-- Greatest value of a 32-bit `LONG`. -/
def LONG_MAX : Int := 2147483647

/-- Truncation of a number toward zero. -/
def truncQ (q : ℚ) : Int := if 0 ≤ q then ⌊q⌋ else ⌈q⌉

/-- Conversion of a `double` to `LONG`: truncation toward zero when the
truncated value fits a `LONG`.  When it does not fit, C++ leaves the result
undefined; the conversion instruction of the compiled program then gives the
least `LONG`, and that is the value taken here. -/
def toLONG (q : ℚ) : Int :=
  if LONG_MIN ≤ truncQ q ∧ truncQ q ≤ LONG_MAX then truncQ q else LONG_MIN

/-- Allocation `new Sprite(file, ..)`: a sprite of the size of the bitmap `file`, at the
origin and at rest. -/
def Sprite.load (dims : String → Int × Int) (file : String) : Sprite :=
  { image := file, bmWidth := (dims file).1, bmHeight := (dims file).2,
    mPosition := ⟨0, 0⟩, mVelocity := ⟨0, 0⟩ }

/-! ## Collision detection (`CPlayer::Collision`) -/

/-- The `RECT` computed at the head of `Collision` and `bulletCollision`:
position plus/minus `width()/2`, `height()/2`, stored in `LONG`s. -/
def spriteRect (s : Sprite) : RECT :=
  { left := toLONG (s.mPosition.x - (cdiv s.width 2 : Int))
    right := toLONG (s.mPosition.x + (cdiv s.width 2 : Int))
    top := toLONG (s.mPosition.y - (cdiv s.height 2 : Int))
    bottom := toLONG (s.mPosition.y + (cdiv s.height 2 : Int)) }

/-- First `if` of `Collision`:
`r.right > r2.left && r.left < r2.right && r.bottom > r2.top && r.top < r2.bottom`. -/
def overlapTest (r r2 : RECT) : Bool :=
  decide (r.right > r2.left) && decide (r.left < r2.right) &&
    decide (r.bottom > r2.top) && decide (r.top < r2.bottom)

/-- Second `if` of `Collision`:
`r.left > r2.right && r.right < r2.left && r.bottom > r2.top && r.top < r2.bottom`. -/
def mirroredTest (r r2 : RECT) : Bool :=
  decide (r.left > r2.right) && decide (r.right < r2.left) &&
    decide (r.bottom > r2.top) && decide (r.top < r2.bottom)

/-- Method `CPlayer::Collision(p1, p2)`. -/
def Collision (p1 p2 : CPlayer) : Bool :=
  let r := spriteRect p1.m_pSprite
  let r2 := spriteRect p2.m_pSprite
  if overlapTest r r2 then true
  else if mirroredTest r r2 then true
  else false

/-- The single strict interval-intersection test of the specification:
the X intervals intersect and the Y intervals intersect. -/
def strictIntersect (A B : RECT) : Prop :=
  A.left < B.right ∧ B.left < A.right ∧ A.top < B.bottom ∧ B.top < A.bottom

instance (A B : RECT) : Decidable (strictIntersect A B) := by
  unfold strictIntersect; infer_instance


/-! ## Construction and the simple accessors -/

/-- Allocation `new AnimatedSprite(file, mask, r, n)`: an animation of `n`
frames at the origin, showing frame 0. -/
def AnimatedSprite.load (file : String) (n : Int) : AnimatedSprite :=
  { image := file, mPosition := ⟨0, 0⟩, mFrameCount := n, mCurrentFrame := 0 }

/-- Method `AnimatedSprite::GetFrameCount()`. -/
def AnimatedSprite.GetFrameCount (a : AnimatedSprite) : Int := a.mFrameCount

/-- Method `AnimatedSprite::SetFrame(k)`. -/
def AnimatedSprite.SetFrame (a : AnimatedSprite) (k : Int) : AnimatedSprite :=
  { a with mCurrentFrame := k }

/-- Constructor `CPlayer::CPlayer(pBackBuffer, x)`, with the member
initialiser `fireCooldown = 30` of the class declaration. -/
def CPlayer.new (dims : String → Int × Int) (x : Int) : CPlayer :=
  { rotateDirection := .DIR_FORWARD
    playerLives := 3
    fireCooldown := 30
    m_pSprite :=
      if x = 1 then Sprite.load dims "data/planeimgandmask.bmp"
      else Sprite.load dims "data/planeimgandmaskk.bmp"
    bullet := Sprite.load dims "data/b.bmp"
    bullets := []
    m_eSpeedState := .SPEED_STOP
    m_fTimer := 0
    m_bExplosion := false
    m_pExplosionSprite := AnimatedSprite.load "data/explosion.bmp" 17
    m_iExplosionFrame := 0 }

/-- Method `CPlayer::GetLives`. -/
def GetLives (p : CPlayer) : Int := p.playerLives

/-- Method `CPlayer::DecreaseLives`. -/
def DecreaseLives (p : CPlayer) : CPlayer :=
  { p with playerLives := p.playerLives - 1 }

/-- Method `CPlayer::SetLives`. -/
def SetLives (p : CPlayer) (currentLive : Int) : CPlayer :=
  { p with playerLives := currentLive }

/-- Method `CPlayer::SetPosition`. -/
def SetPosition (p : CPlayer) (currentPosition : Vec2) : CPlayer :=
  { p with m_pSprite := { p.m_pSprite with mPosition := currentPosition } }

/-! ## Drawing and the fire cooldown (`CPlayer::Draw`, `CPlayer::Shoot`) -/

/-- Method `CPlayer::Draw`: the cooldown is decremented while it is above 1
(the two `draw()` calls only render). -/
def Draw (p : CPlayer) : CPlayer :=
  if p.fireCooldown > 1 then { p with fireCooldown := p.fireCooldown - 1 } else p

/-- Method `CPlayer::Shoot(x)`. -/
def Shoot (dims : String → Int × Int) (p : CPlayer) (x : Int) : CPlayer :=
  if p.fireCooldown < 25 then
    let b := Sprite.load dims "data/b.bmp"
    let b : Sprite :=
      if x = 1 then
        { b with mPosition :=
            ⟨p.m_pSprite.mPosition.x, p.m_pSprite.mPosition.y - (cdiv p.m_pSprite.height 2 : Int)⟩ }
      else
        { b with mPosition :=
            ⟨p.m_pSprite.mPosition.x, p.m_pSprite.mPosition.y + (cdiv p.m_pSprite.height 2 : Int)⟩ }
    { p with bullets := p.bullets ++ [b], fireCooldown := 100 }
  else p

/-- A call `Shoot(x)` in state `p` fires when it leaves one more projectile in
the collection than it found. -/
def shootFires (dims : String → Int × Int) (p : CPlayer) (x : Int) : Prop :=
  (Shoot dims p x).bullets.length = p.bullets.length + 1

instance (dims : String → Int × Int) (p : CPlayer) (x : Int) :
    Decidable (shootFires dims p x) := by
  unfold shootFires; infer_instance

/-- One operation on a player in a frame sequence: a frame advance (`Draw`) or
a `Shoot(x)` attempt. -/
inductive PlayerOp where
  | draw
  | shoot (x : Int)
deriving DecidableEq

/-- Effect of one operation. -/
def PlayerOp.apply (dims : String → Int × Int) (p : CPlayer) : PlayerOp → CPlayer
  | .draw => Draw p
  | .shoot x => Shoot dims p x

/-- Effect of a sequence of operations, first to last. -/
def runOps (dims : String → Int × Int) (p : CPlayer) : List PlayerOp → CPlayer
  | [] => p
  | op :: ops => runOps dims (PlayerOp.apply dims p op) ops

/-- Number of `Draw` calls in a sequence of operations. -/
def drawCount : List PlayerOp → Nat
  | [] => 0
  | .draw :: ops => drawCount ops + 1
  | .shoot _ :: ops => drawCount ops

/-! ## Movement (`CPlayer::Move`) -/

/-- Values returned by `GetSystemMetrics(SM_CXSCREEN)` and
`GetSystemMetrics(SM_CYSCREEN)`. -/
structure Screen where
  cx : Int
  cy : Int
deriving DecidableEq

/-- Guard of the first `if` of `Move`: `x < width() - x`. -/
def xLowGuard (s : Sprite) : Prop := s.mPosition.x < (s.width : ℚ) - s.mPosition.x

/-- Guard of the second `if` of `Move`: `x > SM_CXSCREEN - width()/2`. -/
def xHighGuard (scr : Screen) (s : Sprite) : Prop :=
  s.mPosition.x > ((scr.cx - cdiv s.width 2 : Int) : ℚ)

/-- Guard of the third `if` of `Move`: `y < height() - y`. -/
def yLowGuard (s : Sprite) : Prop := s.mPosition.y < (s.height : ℚ) - s.mPosition.y

/-- Guard of the fourth `if` of `Move`: `y > SM_CYSCREEN - height()`. -/
def yHighGuard (scr : Screen) (s : Sprite) : Prop :=
  s.mPosition.y > ((scr.cy - s.height : Int) : ℚ)

instance (s : Sprite) : Decidable (xLowGuard s) := by unfold xLowGuard; infer_instance
instance (scr : Screen) (s : Sprite) : Decidable (xHighGuard scr s) := by
  unfold xHighGuard; infer_instance
instance (s : Sprite) : Decidable (yLowGuard s) := by unfold yLowGuard; infer_instance
instance (scr : Screen) (s : Sprite) : Decidable (yHighGuard scr s) := by
  unfold yHighGuard; infer_instance

/-- First `if` block of `Move`. -/
def clampXLow (s : Sprite) : Sprite :=
  if xLowGuard s then
    { s with mPosition := { s.mPosition with x := (s.width : ℚ) - s.mPosition.x }
             mVelocity := { s.mVelocity with x := 0 } }
  else s

/-- Second `if` block of `Move`. -/
def clampXHigh (scr : Screen) (s : Sprite) : Sprite :=
  if xHighGuard scr s then
    { s with mPosition := { s.mPosition with x := ((scr.cx - cdiv s.width 2 : Int) : ℚ) }
             mVelocity := { s.mVelocity with x := 0 } }
  else s

/-- Third `if` block of `Move`. -/
def clampYLow (s : Sprite) : Sprite :=
  if yLowGuard s then
    { s with mPosition := { s.mPosition with y := (s.height : ℚ) - s.mPosition.y }
             mVelocity := { s.mVelocity with y := 0 } }
  else s

/-- Fourth `if` block of `Move`. -/
def clampYHigh (scr : Screen) (s : Sprite) : Sprite :=
  if yHighGuard scr s then
    { s with mPosition := { s.mPosition with y := ((scr.cy - s.height : Int) : ℚ) }
             mVelocity := { s.mVelocity with y := 0 } }
  else s

/-- Test `ulDirection & d` of `Move`. -/
def hasDir (ulDirection : Nat) (d : DIRECTION) : Bool := ulDirection &&& d.val != 0

/-- Last four `if`s of `Move`: the impulses of 1.1 on the velocity. -/
def applyImpulses (s : Sprite) (ulDirection : Nat) : Sprite :=
  let s := if hasDir ulDirection .DIR_LEFT then
    { s with mVelocity := { s.mVelocity with x := s.mVelocity.x - 11 / 10 } } else s
  let s := if hasDir ulDirection .DIR_RIGHT then
    { s with mVelocity := { s.mVelocity with x := s.mVelocity.x + 11 / 10 } } else s
  let s := if hasDir ulDirection .DIR_FORWARD then
    { s with mVelocity := { s.mVelocity with y := s.mVelocity.y - 11 / 10 } } else s
  let s := if hasDir ulDirection .DIR_BACKWARD then
    { s with mVelocity := { s.mVelocity with y := s.mVelocity.y + 11 / 10 } } else s
  s

/-- Method `CPlayer::Move(ulDirection)`: the four clamps in source order, then
the impulses. -/
def Move (scr : Screen) (p : CPlayer) (ulDirection : Nat) : CPlayer :=
  let s := clampXLow p.m_pSprite
  let s := clampXHigh scr s
  let s := clampYLow s
  let s := clampYHigh scr s
  { p with m_pSprite := applyImpulses s ulDirection }

/-- Move clamps the X axis when the first or the second `if` is taken. -/
def clampsX (scr : Screen) (p : CPlayer) : Prop :=
  xLowGuard p.m_pSprite ∨ xHighGuard scr (clampXLow p.m_pSprite)

/-- Move clamps the Y axis when the third or the fourth `if` is taken. -/
def clampsY (scr : Screen) (p : CPlayer) : Prop :=
  yLowGuard (clampXHigh scr (clampXLow p.m_pSprite)) ∨
    yHighGuard scr (clampYLow (clampXHigh scr (clampXLow p.m_pSprite)))

/-- Velocity change on X requested by a direction bitmask: minus 1.1 for
`DIR_LEFT`, then plus 1.1 for `DIR_RIGHT`. -/
def impulseX (ulDirection : Nat) : ℚ :=
  (if hasDir ulDirection .DIR_LEFT then (0 : ℚ) - 11 / 10 else 0) +
    (if hasDir ulDirection .DIR_RIGHT then 11 / 10 else 0)

/-- Velocity change on Y requested by a direction bitmask: minus 1.1 for
`DIR_FORWARD`, then plus 1.1 for `DIR_BACKWARD`. -/
def impulseY (ulDirection : Nat) : ℚ :=
  (if hasDir ulDirection .DIR_FORWARD then (0 : ℚ) - 11 / 10 else 0) +
    (if hasDir ulDirection .DIR_BACKWARD then 11 / 10 else 0)

/-- The screen-bound clamp invariant of the specification: the footprint
(position plus/minus half the size) lies inside the screen. -/
def footprintInside (scr : Screen) (s : Sprite) : Prop :=
  ((cdiv s.width 2 : Int) : ℚ) ≤ s.mPosition.x ∧
    s.mPosition.x ≤ ((scr.cx - cdiv s.width 2 : Int) : ℚ) ∧
    ((cdiv s.height 2 : Int) : ℚ) ≤ s.mPosition.y ∧
    s.mPosition.y ≤ ((scr.cy - cdiv s.height 2 : Int) : ℚ)

instance (scr : Screen) (s : Sprite) : Decidable (footprintInside scr s) := by
  unfold footprintInside; infer_instance

/-! ## Explosion (`CPlayer::Explode`, `CPlayer::AdvanceExplosion`) -/

/-- Method `CPlayer::Explode`. -/
def Explode (p : CPlayer) : CPlayer :=
  { p with
    m_pExplosionSprite :=
      ({ p.m_pExplosionSprite with mPosition := p.m_pSprite.mPosition }).SetFrame 0
    m_bExplosion := true }

/-- Method `CPlayer::AdvanceExplosion`: the returned boolean and the new
state. -/
def AdvanceExplosion (p : CPlayer) : Bool × CPlayer :=
  if p.m_bExplosion then
    let p1 : CPlayer :=
      { p with
        m_pExplosionSprite := p.m_pExplosionSprite.SetFrame p.m_iExplosionFrame
        m_iExplosionFrame := p.m_iExplosionFrame + 1 }
    if p1.m_iExplosionFrame = p1.m_pExplosionSprite.GetFrameCount then
      (false,
        { p1 with
          m_bExplosion := false
          m_iExplosionFrame := 0
          m_pSprite := { p1.m_pSprite with mVelocity := ⟨0, 0⟩ }
          m_eSpeedState := .SPEED_STOP })
    else (true, p1)
  else (true, p)

/-- Results of `n` consecutive `AdvanceExplosion` calls, first to last, and
the state they leave. -/
def advanceN : Nat → CPlayer → List Bool × CPlayer
  | 0, p => ([], p)
  | n + 1, p =>
    let r := AdvanceExplosion p
    let rest := advanceN n r.2
    (r.1 :: rest.1, rest.2)

/-! ## Facing direction (`CPlayer::RotateLeft`) -/

/-- Method `CPlayer::RotateLeft`. -/
def RotateLeft (dims : String → Int × Int) (p : CPlayer) : CPlayer :=
  let position := p.m_pSprite.mPosition
  let velocity := p.m_pSprite.mVelocity
  let p : CPlayer :=
    match p.rotateDirection with
    | .DIR_FORWARD =>
      { p with m_pSprite := Sprite.load dims "data/planeimgandmaskLeft.bmp"
               rotateDirection := .DIR_LEFT }
    | .DIR_BACKWARD =>
      { p with m_pSprite := Sprite.load dims "data/planeimgandmaskRight.bmp"
               rotateDirection := .DIR_RIGHT }
    | .DIR_LEFT =>
      { p with rotateDirection := .DIR_BACKWARD
               m_pSprite := Sprite.load dims "data/planeimgandmaskk.bmp" }
    | .DIR_RIGHT =>
      { p with m_pSprite := Sprite.load dims "data/planeimgandmask.bmp"
               rotateDirection := .DIR_FORWARD }
  { p with m_pSprite := { p.m_pSprite with mPosition := position, mVelocity := velocity } }

/-- Successor of a facing in the cycle of the specification,
Forward, Left, Backward, Right, Forward. -/
def nextFacing : DIRECTION → DIRECTION
  | .DIR_FORWARD => .DIR_LEFT
  | .DIR_LEFT => .DIR_BACKWARD
  | .DIR_BACKWARD => .DIR_RIGHT
  | .DIR_RIGHT => .DIR_FORWARD

/-- Facing and sprite bitmap observed after each of `n` consecutive
`RotateLeft` calls, first to last. -/
def rotateTrace (dims : String → Int × Int) : Nat → CPlayer → List (DIRECTION × String)
  | 0, _ => []
  | n + 1, p =>
    ((RotateLeft dims p).rotateDirection, (RotateLeft dims p).m_pSprite.image) ::
      rotateTrace dims n (RotateLeft dims p)

/-! ## Projectiles (`CPlayer::bulletCollision`, `CPlayer::fire`) -/

/-- Assignment `bullet->mPosition.y = y` through the pointer `bullet`: it
writes the back of `bullets`, or the constructor's sprite while `bullets` is
empty. -/
def CPlayer.setCurBulletY (p : CPlayer) (y : ℚ) : CPlayer :=
  match p.bullets.getLast? with
  | none => { p with bullet := { p.bullet with mPosition := { p.bullet.mPosition with y := y } } }
  | some b =>
    { p with bullets :=
        p.bullets.dropLast ++ [{ b with mPosition := { b.mPosition with y := y } }] }

/-- Method `CPlayer::bulletCollision(p1, p2, x)`: `p1` is the shooter, `p2`
the victim.  The result is the returned boolean and the new state of the
shooter, the only object written. -/
def bulletCollision (p1 p2 : CPlayer) (x : Int) : Bool × CPlayer :=
  let r := spriteRect p2.m_pSprite
  let r2 := spriteRect p1.curBullet
  if x = 1 then
    if overlapTest r r2 then (true, p1.setCurBulletY (-100))
    else if mirroredTest r r2 then (true, p1.setCurBulletY (-100))
    else (false, p1)
  else
    if overlapTest r r2 then (true, p1.setCurBulletY 2000)
    else if mirroredTest r r2 then (true, p1.setCurBulletY 2000)
    else (false, p1)

/-- Method `CPlayer::fire(x, y)`: every sprite of `bullets` is moved by `x`
along Y and by `y` along X, and its velocity is set to `(y, x)`. -/
def fire (p : CPlayer) (x y : Int) : CPlayer :=
  { p with bullets := p.bullets.map fun it =>
      { it with mPosition := ⟨it.mPosition.x + (y : ℚ), it.mPosition.y + (x : ℚ)⟩
                mVelocity := ⟨(y : ℚ), (x : ℚ)⟩ } }

/-! ## The application (`CGameApp`) -/

/-- What the program takes from outside its sources: the sizes of the bitmaps,
the screen metrics, the method `Sprite::update(dt)` (its source file is not
part of the repository sources at hand), and the indeterminate values of the
two uninitialised locals `live1`, `live2` of `LoadGame`. -/
structure Env where
  dims : String → Int × Int
  scr : Screen
  spriteUpdate : Sprite → ℚ → Sprite
  uninit1 : Int
  uninit2 : Int

/-- Method `CPlayer::Update(dt)`.  The speed `v` is the magnitude of the
velocity, so `v > 35` and `v < 25` are tested on its square. -/
def Update (env : Env) (p : CPlayer) (dt : ℚ) : CPlayer :=
  let s := env.spriteUpdate p.m_pSprite dt
  let v2 := s.mVelocity.x * s.mVelocity.x + s.mVelocity.y * s.mVelocity.y
  let t := p.m_fTimer + dt
  match p.m_eSpeedState with
  | .SPEED_STOP =>
    if v2 > 35 * 35 then { p with m_pSprite := s, m_eSpeedState := .SPEED_START, m_fTimer := 0 }
    else { p with m_pSprite := s, m_fTimer := t }
  | .SPEED_START =>
    if v2 < 25 * 25 then { p with m_pSprite := s, m_eSpeedState := .SPEED_STOP, m_fTimer := 0 }
    else if t > 1 then { p with m_pSprite := s, m_fTimer := 0 }
    else { p with m_pSprite := s, m_fTimer := t }

/-- State of the application: the members `m_bActive`, `m_pPlayer`,
`m_pPlayer2` of `CGameApp`, whether `PostQuitMessage` has been called, and the
contents of the file `save.txt` (`none` while the file does not exist). -/
structure CGameApp where
  m_bActive : Bool
  m_pPlayer : CPlayer
  m_pPlayer2 : CPlayer
  quitPosted : Bool
  saveTxt : Option (List Char)

/-- Methods `BuildObjects` and `SetupGameState`: two new players at
`(100, 400)` and `(600, 0)`; the window is shown, so the application is
active; no game has been saved yet. -/
def CGameApp.start (env : Env) : CGameApp :=
  { m_bActive := true
    m_pPlayer := SetPosition (CPlayer.new env.dims 1) ⟨100, 400⟩
    m_pPlayer2 := SetPosition (CPlayer.new env.dims 2) ⟨600, 0⟩
    quitPosted := false
    saveTxt := none }

/-- Virtual-key code `VK_UP`. -/
def VK_UP : Nat := 0x26
/-- Virtual-key code `VK_DOWN`. -/
def VK_DOWN : Nat := 0x28
/-- Virtual-key code `VK_LEFT`. -/
def VK_LEFT : Nat := 0x25
/-- Virtual-key code `VK_RIGHT`. -/
def VK_RIGHT : Nat := 0x27
/-- Virtual-key code `VK_ESCAPE`. -/
def VK_ESCAPE : Nat := 0x1B
/-- Virtual-key code `VK_RETURN`. -/
def VK_RETURN : Nat := 0x0D
/-- Virtual-key code `VK_SPACE`. -/
def VK_SPACE : Nat := 0x20

/-- Statement `if (pKeyBuffer[vk] & 0xF0) Direction |= d`. -/
def orKey (pKeyBuffer : Nat → Nat) (vk : Nat) (d : DIRECTION) (Direction : Nat) : Nat :=
  if pKeyBuffer vk &&& 0xF0 != 0 then Direction ||| d.val else Direction

/-- Method `CGameApp::ProcessInput`; `keys` is the buffer filled by
`GetKeyboardState`, `none` when that call fails. -/
def ProcessInput (env : Env) (keys : Option (Nat → Nat)) (app : CGameApp) : CGameApp :=
  match keys with
  | none => app
  | some pKeyBuffer =>
    let Direction := 0
    let Direction2 := 0
    let Direction := orKey pKeyBuffer VK_UP .DIR_FORWARD Direction
    let Direction := orKey pKeyBuffer VK_DOWN .DIR_BACKWARD Direction
    let Direction := orKey pKeyBuffer VK_LEFT .DIR_LEFT Direction
    let Direction := orKey pKeyBuffer VK_RIGHT .DIR_RIGHT Direction
    let Direction2 := orKey pKeyBuffer 'W'.toNat .DIR_FORWARD Direction2
    let Direction2 := orKey pKeyBuffer 'S'.toNat .DIR_BACKWARD Direction2
    let Direction2 := orKey pKeyBuffer 'A'.toNat .DIR_LEFT Direction2
    let Direction2 := orKey pKeyBuffer 'D'.toNat .DIR_RIGHT Direction2
    let Direction2 := orKey pKeyBuffer 'W'.toNat .DIR_FORWARD Direction2
    let Direction2 := orKey pKeyBuffer 'S'.toNat .DIR_BACKWARD Direction2
    let Direction2 := orKey pKeyBuffer 'A'.toNat .DIR_LEFT Direction2
    let Direction2 := orKey pKeyBuffer 'D'.toNat .DIR_RIGHT Direction2
    { app with
      m_pPlayer := Move env.scr app.m_pPlayer Direction
      m_pPlayer2 := Move env.scr app.m_pPlayer2 Direction2 }

/-- Method `CGameApp::AnimateObjects`; `dt` is `m_Timer.GetTimeElapsed()`. -/
def AnimateObjects (env : Env) (dt : ℚ) (app : CGameApp) : CGameApp :=
  { app with
    m_pPlayer := Update env app.m_pPlayer dt
    m_pPlayer2 := Update env app.m_pPlayer2 dt }

/-- Method `CGameApp::DrawObjects`. -/
def DrawObjects (app : CGameApp) : CGameApp :=
  let p1 := Draw app.m_pPlayer
  let p2 := Draw app.m_pPlayer2
  let hit := bulletCollision p1 p2 1
  let p1 := hit.2
  let p2 := if hit.1 then DecreaseLives (Explode p2) else p2
  let hit := bulletCollision p2 p1 2
  let p2 := hit.2
  let p1 := if hit.1 then DecreaseLives (Explode p1) else p1
  let p1 := if p1.rotateDirection.val = 1 then fire p1 (-1) 0 else p1
  let p1 := if p1.rotateDirection.val = 2 then fire p1 1 0 else p1
  let p1 := if p1.rotateDirection.val = 4 then fire p1 0 (-1) else p1
  let p1 := if p1.rotateDirection.val = 8 then fire p1 0 1 else p1
  let p2 := fire p2 1 0
  { app with m_pPlayer := p1, m_pPlayer2 := p2 }

/-- The game-over message box, by its text. -/
inductive GameOver where
  | SecondPlayerWins
  | FirstPlayerWins
deriving DecidableEq, Repr

/-- What one frame reads from outside: the keyboard buffer (`none` when
`GetKeyboardState` fails) and the elapsed time of the timer. -/
structure FrameInput where
  keys : Option (Nat → Nat)
  dt : ℚ

/-- The game-over test of `FrameAdvance`: the message box shown, if any, and
the state after the `PostQuitMessage(0)` that follows it. -/
def gameOverCheck (app : CGameApp) : Option GameOver × CGameApp :=
  if GetLives app.m_pPlayer = 0 then
    (some .SecondPlayerWins, { app with quitPosted := true })
  else if GetLives app.m_pPlayer2 = 0 then
    (some .FirstPlayerWins, { app with quitPosted := true })
  else (none, app)

/-- Method `CGameApp::FrameAdvance`: the game-over message box shown in the
frame, if any, and the state the frame leaves.  The frame-rate title has no
effect on the state and is left out. -/
def FrameAdvance (env : Env) (inp : FrameInput) (app : CGameApp) : Option GameOver × CGameApp :=
  if !app.m_bActive then (none, app)
  else
    let over := gameOverCheck app
    let app := over.2
    let app := ProcessInput env inp.keys app
    let app := AnimateObjects env inp.dt app
    let app := DrawObjects app
    (over.1, app)

/-! ## Formatted text input and output (`std::ofstream`, `std::ifstream`)

The save file is a sequence of characters.  The stream operators of the C++
library are modelled on it: `<<` on an `int` writes its decimal numeral;
`<<` on a `double` writes it in the default format (general notation with
six significant digits, trailing zeros removed); `>>` skips white space and
reads a numeral.  Values outside the range of `int` are not modelled. -/

/-- The character of a decimal digit. -/
def digitChar (d : Nat) : Char := Char.ofNat (48 + d)

/-- The `k` decimal digits of `n`, most significant first (`n < 10 ^ k`). -/
def putDigits : Nat → Nat → List Char
  | 0, _ => []
  | k + 1, n => digitChar (n / 10 ^ k) :: putDigits k (n % 10 ^ k)

/-- The decimal numeral of a natural number. -/
def putNat (n : Nat) : List Char := putDigits (Nat.log 10 n + 1) n

/-- Text written by `save << n` for an `int`. -/
def putInt (n : Int) : List Char :=
  if n < 0 then '-' :: putNat n.natAbs else putNat n.natAbs

/-- The digits of the fraction `r / 10 ^ k` without its trailing zeros. -/
def putFrac : Nat → Nat → List Char
  | 0, _ => []
  | k + 1, r => if r = 0 then [] else digitChar (r / 10 ^ k) :: putFrac k (r % 10 ^ k)

/-- The decimal numeral of `m / 10 ^ k`, without trailing zeros and without a
decimal point when the value is whole. -/
def putDec (m k : Nat) : List Char :=
  putNat (m / 10 ^ k) ++ (if m % 10 ^ k = 0 then [] else '.' :: putFrac k (m % 10 ^ k))

/-- The exponent part of scientific notation: `e`, a sign, at least two
digits. -/
def putExp (e : Int) : List Char :=
  'e' :: (if e < 0 then '-' else '+') ::
    (if e.natAbs < 10 then '0' :: putNat e.natAbs else putNat e.natAbs)

/-- Rounding to the nearest integer, an exact tie going to the even
neighbour, as a stream that rounds the exact value of the `double` does. -/
def roundHalfEven (x : ℚ) : Int :=
  if Int.fract x < 1 / 2 then ⌊x⌋
  else if 1 / 2 < Int.fract x then ⌊x⌋ + 1
  else if ⌊x⌋ % 2 = 0 then ⌊x⌋
  else ⌊x⌋ + 1

/-- Six-digit significand `m` and decimal exponent `e` of a positive number
`a`: `a` rounded to six significant digits (a tie goes to the even digit) is
`m * 10 ^ (e - 5)`. -/
def sig6 (a : ℚ) : Nat × Int :=
  let e := Int.log 10 a
  let m := (roundHalfEven (a * (10 : ℚ) ^ (5 - e))).toNat
  if m = 10 ^ 6 then (10 ^ 5, e + 1) else (m, e)

/-- Text written by `save << x` for a `double`, in the default format of the
stream: six significant digits, scientific notation when the decimal exponent
is below -4 or at least 6, fixed notation otherwise.  The digits are those of
the exact value of `q` rounded to nearest, a tie to the even digit, which is
what a stream that rounds correctly writes for a `double`. -/
def putDouble (q : ℚ) : List Char :=
  if q = 0 then ['0']
  else
    (if q < 0 then ['-'] else []) ++
      (if (sig6 |q|).2 < -4 ∨ 6 ≤ (sig6 |q|).2 then putDec (sig6 |q|).1 5 ++ putExp (sig6 |q|).2
       else putDec (sig6 |q|).1 (5 - (sig6 |q|).2).toNat)

/-- An input stream: the characters not yet read and the fail bit. -/
structure IStream where
  buf : List Char
  fail : Bool
deriving DecidableEq

/-- White space in the sense of `isspace`. -/
def isSpace (c : Char) : Bool := c == ' ' || (9 ≤ c.toNat && c.toNat ≤ 13)

/-- Removal of leading white space. -/
def skipWs : List Char → List Char
  | [] => []
  | c :: cs => if isSpace c then skipWs cs else c :: cs

/-- Reading of a run of decimal digits: the accumulated value, the number of
digits read, and the rest of the text. -/
def getDigits : List Char → Nat → Nat → Nat × Nat × List Char
  | [], acc, cnt => (acc, cnt, [])
  | c :: cs, acc, cnt =>
    if c.isDigit then getDigits cs (acc * 10 + (c.toNat - 48)) (cnt + 1)
    else (acc, cnt, c :: cs)

/-- Reading of an optional sign: whether it is a minus, and the rest. -/
def getSign : List Char → Bool × List Char
  | [] => (false, [])
  | c :: cs => if c = '-' then (true, cs) else if c = '+' then (false, cs) else (false, c :: cs)

/-- Extraction `stream >> n` for an `int` variable holding `cur`.  A stream
that has failed, or that ends after the white space, leaves the variable as
it is; text that is not a numeral stores 0 and sets the fail bit. -/
def getInt (s : IStream) (cur : Int) : Int × IStream :=
  if s.fail then (cur, s)
  else
    match skipWs s.buf with
    | [] => (cur, { buf := [], fail := true })
    | c :: cs =>
      let sg := getSign (c :: cs)
      let d := getDigits sg.2 0 0
      if d.2.1 = 0 then (0, { buf := d.2.2, fail := true })
      else ((if sg.1 then -(d.1 : Int) else (d.1 : Int)), { buf := d.2.2, fail := false })

/-- Reading of digits with an optional fraction: the value and the rest, or
`none` when there is no digit. -/
def getMantissa (cs : List Char) : Option (ℚ × List Char) :=
  let i := getDigits cs 0 0
  match i.2.2 with
  | c :: t =>
    if c = '.' then
      let f := getDigits t i.1 0
      if i.2.1 = 0 ∧ f.2.1 = 0 then none
      else some ((f.1 : ℚ) / (10 : ℚ) ^ f.2.1, f.2.2)
    else if i.2.1 = 0 then none else some ((i.1 : ℚ), c :: t)
  | [] => if i.2.1 = 0 then none else some ((i.1 : ℚ), [])

/-- Reading of an optional exponent part: the exponent (0 when there is none)
and the rest. -/
def getExponent (cs : List Char) : Int × List Char :=
  match cs with
  | c :: t =>
    if c = 'e' ∨ c = 'E' then
      let sg := getSign t
      let d := getDigits sg.2 0 0
      if d.2.1 = 0 then (0, cs)
      else ((if sg.1 then -(d.1 : Int) else (d.1 : Int)), d.2.2)
    else (0, cs)
  | [] => (0, [])

/-- Extraction `stream >> x` for a `double` variable holding `cur`. -/
def getDouble (s : IStream) (cur : ℚ) : ℚ × IStream :=
  if s.fail then (cur, s)
  else
    match skipWs s.buf with
    | [] => (cur, { buf := [], fail := true })
    | c :: cs =>
      let sg := getSign (c :: cs)
      match getMantissa sg.2 with
      | none => (0, { buf := sg.2, fail := true })
      | some (m, rest) =>
        let ex := getExponent rest
        ((if sg.1 then -1 else 1) * (m * (10 : ℚ) ^ ex.1), { buf := ex.2, fail := false })

/-! ## Persistence (`CGameApp::SaveGame`, `CGameApp::LoadGame`) -/

/-- Method `CGameApp::SaveGame`: the text written to `save.txt`. -/
def SaveGame (Player1 Player2 : CPlayer) : List Char :=
  putInt (GetLives Player1) ++ '\n' :: (putInt (GetLives Player2) ++ '\n' ::
    (putDouble Player1.m_pSprite.mPosition.x ++ ' ' ::
      (putDouble Player1.m_pSprite.mPosition.y ++ '\n' ::
        (putDouble Player2.m_pSprite.mPosition.x ++ ' ' ::
          (putDouble Player2.m_pSprite.mPosition.y ++ ['\n'])))))

/-- Method `CGameApp::LoadGame`: the two players after the call; `file` is the
text of `save.txt`, `none` when the file cannot be opened.  The locals `live1`
and `live2` start with the indeterminate values of the environment, the two
`Vec2` locals as `(0, 0)`. -/
def LoadGame (env : Env) (file : Option (List Char)) (Player1 Player2 : CPlayer) :
    CPlayer × CPlayer :=
  let save : IStream :=
    match file with
    | none => { buf := [], fail := true }
    | some t => { buf := t, fail := false }
  let r1 := getInt save env.uninit1
  let r2 := getInt r1.2 env.uninit2
  let x1 := getDouble r2.2 0
  let y1 := getDouble x1.2 0
  let x2 := getDouble y1.2 0
  let y2 := getDouble x2.2 0
  (SetPosition (SetLives Player1 r1.1) ⟨x1.1, y1.1⟩,
    SetPosition (SetLives Player2 r2.1) ⟨x2.1, y2.1⟩)

/-! ## Window messages and the main loop (`DisplayWndProc`, `BeginGame`) -/

/-- The window messages `DisplayWndProc` reacts to, with their `wParam`;
`other` stands for every message that has no effect on the modelled state. -/
inductive Msg where
  | WM_CLOSE
  | WM_DESTROY
  | WM_SIZE (wParam : Nat)
  | WM_KEYDOWN (wParam : Nat)
  | WM_TIMER (wParam : Nat)
  | other
deriving DecidableEq

/-- Constant `SIZE_MINIMIZED` of `WM_SIZE`. -/
def SIZE_MINIMIZED : Nat := 1

/-- The `WM_KEYDOWN` case of `DisplayWndProc`. -/
def onKeyDown (env : Env) (wParam : Nat) (app : CGameApp) : CGameApp :=
  if wParam = VK_ESCAPE then { app with quitPosted := true }
  else if wParam = VK_RETURN then
    { app with m_pPlayer := DecreaseLives (Explode app.m_pPlayer) }
  else if wParam = 'Q'.toNat then
    { app with m_pPlayer2 := DecreaseLives (Explode app.m_pPlayer2) }
  else if wParam = 'H'.toNat then
    { app with m_pPlayer2 := Shoot env.dims app.m_pPlayer2 (-1) }
  else if wParam = 'O'.toNat then
    { app with m_pPlayer := RotateLeft env.dims app.m_pPlayer }
  else if wParam = 'R'.toNat then
    { app with m_pPlayer2 := RotateLeft env.dims app.m_pPlayer2 }
  else if wParam = VK_SPACE then
    { app with m_pPlayer := Shoot env.dims app.m_pPlayer 1 }
  else if wParam = 'S'.toNat then
    { app with saveTxt := some (SaveGame app.m_pPlayer app.m_pPlayer2) }
  else if wParam = 'L'.toNat then
    { app with
      m_pPlayer := (LoadGame env app.saveTxt app.m_pPlayer app.m_pPlayer2).1
      m_pPlayer2 := (LoadGame env app.saveTxt app.m_pPlayer app.m_pPlayer2).2 }
  else app

/-- The `WM_TIMER` case of `DisplayWndProc`.  The cases 1, 2 and 3 of its
switch have no `break` between them: case 1 runs on into case 2 and case 2
into case 3. -/
def onTimer (wParam : Nat) (app : CGameApp) : CGameApp :=
  let app : CGameApp :=
    if wParam = 1 then { app with m_pPlayer := (AdvanceExplosion app.m_pPlayer).2 } else app
  let app : CGameApp :=
    if wParam = 1 ∨ wParam = 2 then
      { app with m_pPlayer2 := (AdvanceExplosion app.m_pPlayer2).2 }
    else app
  if wParam = 1 ∨ wParam = 2 ∨ wParam = 3 then
    if Collision app.m_pPlayer app.m_pPlayer2 then
      { app with
        m_pPlayer := SetPosition (DecreaseLives (Explode app.m_pPlayer)) ⟨100, 400⟩
        m_pPlayer2 := SetPosition (DecreaseLives (Explode app.m_pPlayer2)) ⟨600, 0⟩ }
    else app
  else app

/-- Method `CGameApp::DisplayWndProc`. -/
def DisplayWndProc (env : Env) (Message : Msg) (app : CGameApp) : CGameApp :=
  match Message with
  | .WM_CLOSE => { app with quitPosted := true }
  | .WM_DESTROY => { app with quitPosted := true }
  | .WM_SIZE wParam =>
    if wParam = SIZE_MINIMIZED then { app with m_bActive := false }
    else { app with m_bActive := true }
  | .WM_KEYDOWN wParam => onKeyDown env wParam app
  | .WM_TIMER wParam => onTimer wParam app
  | .other => app

/-- One turn of the loop of `BeginGame`, as the message queue decides it:
`PeekMessage` delivers a window message, or it has none to deliver. -/
inductive Tick where
  | message (m : Msg)
  | idle (inp : FrameInput)

/-- Method `CGameApp::BeginGame` over a sequence of loop turns: the game-over
message boxes shown, in order, and the final state.  A delivered message is
dispatched to `DisplayWndProc`.  When the queue has nothing to deliver, the
loop calls `FrameAdvance`, unless `PostQuitMessage` has been called: then
`PeekMessage` returns `WM_QUIT` and the loop ends. -/
def BeginGame (env : Env) : List Tick → CGameApp → List GameOver × CGameApp
  | [], app => ([], app)
  | .message m :: ts, app => BeginGame env ts (DisplayWndProc env m app)
  | .idle inp :: ts, app =>
    if app.quitPosted then ([], app)
    else
      let r := FrameAdvance env inp app
      let rest := BeginGame env ts r.2
      (r.1.toList ++ rest.1, rest.2)

/-- Dispatch of a sequence of window messages, first to last. -/
def dispatchAll (env : Env) : List Msg → CGameApp → CGameApp
  | [], app => app
  | m :: ms, app => dispatchAll env ms (DisplayWndProc env m app)

/-! ## Concrete states used as examples -/

/-- Bitmap sizes for the examples: every craft bitmap is 64 by 64, the
projectile bitmap 8 by 16. -/
def exampleDims (file : String) : Int × Int :=
  if file = "data/b.bmp" then (8, 16) else (64, 64)

/-- Player 1 as built by `BuildObjects` and placed by `SetupGameState`. -/
def examplePlayer1 : CPlayer :=
  { CPlayer.new exampleDims 1 with
    m_pSprite := { Sprite.load exampleDims "data/planeimgandmask.bmp" with
      mPosition := ⟨100, 400⟩ } }

/-- Player 1 drifting to the right with velocity `(3, 0)`. -/
def exampleDrifting : CPlayer :=
  { examplePlayer1 with
    m_pSprite := { examplePlayer1.m_pSprite with mVelocity := ⟨3, 0⟩ } }

/-- Player 1 part-way through an explosion: `Explode`, then five
`AdvanceExplosion` calls. -/
def exampleMidExplosion : CPlayer :=
  (advanceN 5 (Explode examplePlayer1)).2

/-- Player 2 as built by `BuildObjects` and placed by `SetupGameState`, at the
top edge of the screen. -/
def examplePlayer2 : CPlayer :=
  { CPlayer.new exampleDims 2 with
    m_pSprite := { Sprite.load exampleDims "data/planeimgandmaskk.bmp" with
      mPosition := ⟨600, 0⟩, mVelocity := ⟨0, -5⟩ } }

/-- Player 1 at the left edge of the screen, still moving left. -/
def exampleAtLeftEdge : CPlayer :=
  { examplePlayer1 with
    m_pSprite := { examplePlayer1.m_pSprite with mPosition := ⟨0, 400⟩, mVelocity := ⟨-5, 0⟩ } }

/-- A full-HD screen. -/
def exampleScreen : Screen := ⟨1920, 1080⟩

/-- A screen 800 wide and 120 high. -/
def exampleLowScreen : Screen := ⟨800, 120⟩

/-- A craft of 100 by 100 at rest at `(400, 60)`: on `exampleLowScreen` its
footprint spans 10 to 110 vertically. -/
def exampleLargeCraft : CPlayer :=
  { examplePlayer1 with
    m_pSprite := { examplePlayer1.m_pSprite with
      bmWidth := 100, bmHeight := 100, mPosition := ⟨400, 60⟩ } }

/-- Player 1 moved to `x = 2147483647`, where the right edge of its box,
`x + 32`, does not fit a `LONG`. -/
def exampleFarRight : CPlayer :=
  { examplePlayer1 with
    m_pSprite := { examplePlayer1.m_pSprite with mPosition := ⟨2147483647, 400⟩ } }

/-- Player 1 off the screen at `(-50, 5000)`, to the left of it and below it. -/
def exampleOffScreen : CPlayer :=
  { examplePlayer1 with
    m_pSprite := { examplePlayer1.m_pSprite with mPosition := ⟨-50, 5000⟩ } }

/-- A second craft whose box touches the box of `examplePlayer1` along one edge. -/
def exampleTouching : CPlayer :=
  { CPlayer.new exampleDims 2 with
    m_pSprite := { Sprite.load exampleDims "data/planeimgandmaskk.bmp" with
      mPosition := ⟨164, 400⟩ } }

/-- An environment for the examples: the example bitmap sizes and screen, a
sprite update that moves the position by `dt` times the velocity, and two
arbitrary numbers for the uninitialised locals of `LoadGame`. -/
def exampleEnv : Env :=
  { dims := exampleDims
    scr := exampleScreen
    spriteUpdate := fun s dt =>
      { s with mPosition :=
          ⟨s.mPosition.x + s.mVelocity.x * dt, s.mPosition.y + s.mVelocity.y * dt⟩ }
    uninit1 := -858993460
    uninit2 := -858993460 }

/-- A frame in which no key is down, one sixtieth of a second long. -/
def exampleQuietFrame : FrameInput := { keys := some fun _ => 0, dt := 1 / 60 }

/-- A frame in which only the Left arrow is down. -/
def exampleLeftFrame : FrameInput :=
  { keys := some fun vk => if vk = VK_LEFT then 0x80 else 0, dt := 1 / 60 }

/-- A game in which player 1 is on its last life at `(100, 400)` and the last
projectile of player 2 is at `(100, 390)`, inside the box of player 1. -/
def exampleLastLife : CGameApp :=
  { m_bActive := true
    m_pPlayer := { examplePlayer1 with playerLives := 1 }
    m_pPlayer2 :=
      { examplePlayer2 with
        bullets := [{ Sprite.load exampleDims "data/b.bmp" with mPosition := ⟨100, 390⟩ }] }
    quitPosted := false
    saveTxt := none }

/-- The same game with player 1 at 0 lives. -/
def exampleNoLife : CGameApp :=
  { exampleLastLife with m_pPlayer := { examplePlayer1 with playerLives := 0 } }

/-- A new game in which player 1 has 0 lives. -/
def exampleGameOver : CGameApp :=
  { CGameApp.start exampleEnv with
    m_pPlayer := SetLives (CGameApp.start exampleEnv).m_pPlayer 0 }

/-- The four `WM_KEYDOWN` messages of four presses of the Return key. -/
def exampleFourReturns : List Msg :=
  [.WM_KEYDOWN VK_RETURN, .WM_KEYDOWN VK_RETURN, .WM_KEYDOWN VK_RETURN, .WM_KEYDOWN VK_RETURN]

/-! ## Collision: lemmas -/

theorem truncQ_mono {a b : ℚ} (h : a ≤ b) : truncQ a ≤ truncQ b := by
  unfold truncQ
  split_ifs with ha hb hb
  · exact Int.floor_mono h
  · exact absurd (le_trans ha h) hb
  · have h1 : ⌈a⌉ ≤ 0 := Int.ceil_le.mpr (by push_cast; linarith)
    have h2 : (0 : Int) ≤ ⌊b⌋ := Int.floor_nonneg.mpr hb
    exact le_trans h1 h2
  · exact Int.ceil_mono h

theorem truncQ_le_LONG_MAX {b : ℚ} (hb : b < 2147483648) : truncQ b ≤ LONG_MAX := by
  unfold truncQ LONG_MAX
  split_ifs with h0
  · have : ⌊b⌋ < 2147483648 := Int.floor_lt.mpr (by push_cast; exact hb)
    omega
  · have : ⌈b⌉ ≤ 0 := Int.ceil_le.mpr (by push_cast; linarith)
    omega

/-- The conversion to `LONG` is monotone below the upper end of the range. -/
theorem toLONG_mono {a b : ℚ} (h : a ≤ b) (hb : b < 2147483648) : toLONG a ≤ toLONG b := by
  have hab := truncQ_mono h
  have hmax := truncQ_le_LONG_MAX hb
  unfold toLONG
  split_ifs with h1 h2 h2
  · exact hab
  · exfalso
    apply h2
    exact ⟨le_trans h1.1 hab, hmax⟩
  · exact h2.1
  · exact le_refl _

theorem cdiv_two_nonneg {w : Int} (h : 0 ≤ w) : 0 ≤ cdiv w 2 := by
  unfold cdiv
  exact Int.tdiv_nonneg h (by decide)

theorem spriteRect_left_le_right (s : Sprite) (h : 0 ≤ s.bmWidth)
    (hr : s.mPosition.x + ((cdiv s.width 2 : Int) : ℚ) < 2147483648) :
    (spriteRect s).left ≤ (spriteRect s).right := by
  have hc : (0 : ℚ) ≤ ((cdiv s.width 2 : Int) : ℚ) := by
    exact_mod_cast cdiv_two_nonneg h
  exact toLONG_mono (by linarith) hr

theorem spriteRect_top_le_bottom (s : Sprite) (h : 0 ≤ s.bmHeight)
    (hr : s.mPosition.y + ((cdiv s.height 2 : Int) : ℚ) < 2147483648) :
    (spriteRect s).top ≤ (spriteRect s).bottom := by
  have hc : (0 : ℚ) ≤ ((cdiv s.height 2 : Int) : ℚ) := by
    exact_mod_cast cdiv_two_nonneg h
  exact toLONG_mono (by linarith) hr

theorem mirroredTest_false_of_ordered (r r2 : RECT) (h2 : r2.left ≤ r2.right)
    (h1 : r.left ≤ r.right) : mirroredTest r r2 = false := by
  unfold mirroredTest
  by_contra hne
  simp only [Bool.not_eq_false, Bool.and_eq_true, decide_eq_true_eq] at hne
  omega

theorem overlapTest_iff (r r2 : RECT) : overlapTest r r2 = true ↔ strictIntersect r r2 := by
  unfold overlapTest strictIntersect
  simp only [Bool.and_eq_true, decide_eq_true_eq]
  constructor
  · rintro ⟨⟨⟨a, b⟩, c⟩, d⟩
    exact ⟨b, a, d, c⟩
  · rintro ⟨a, b, c, d⟩
    exact ⟨⟨⟨b, a⟩, d⟩, c⟩

theorem overlapTest_comm (r r2 : RECT) : overlapTest r r2 = overlapTest r2 r := by
  rw [Bool.eq_iff_iff, overlapTest_iff, overlapTest_iff]
  unfold strictIntersect
  tauto

theorem mirroredTest_comm (r r2 : RECT) : mirroredTest r r2 = mirroredTest r2 r := by
  rw [Bool.eq_iff_iff]
  unfold mirroredTest
  simp only [Bool.and_eq_true, decide_eq_true_eq]
  constructor <;> (rintro ⟨⟨⟨a, b⟩, c⟩, d⟩; omega)

/-! ## Collision: specification properties -/

/-- C1: `Collision` is symmetric: for every pair of players (any positions,
any sprite sizes), `Collision(A, B)` and `Collision(B, A)` return the same
boolean. -/
theorem C1_Collision_symmetric (A B : CPlayer) : Collision A B = Collision B A := by
  unfold Collision
  simp only [overlapTest_comm (spriteRect A.m_pSprite) (spriteRect B.m_pSprite),
    mirroredTest_comm (spriteRect A.m_pSprite) (spriteRect B.m_pSprite)]

/-- C2, counterexample: with player 1 moved to `x = 2147483647` the right
edge of its box, `x + 32`, does not fit a `LONG` and is stored as the least
`LONG`, below the left edge.  Against the craft at `(100, 400)`, the two
boxes fail the strict interval-intersection test and the first test of
`Collision`, but pass the mirrored test, so `Collision` returns true: here
the mirrored test does change the result. -/
theorem C2_Collision_mirrored_counterexample :
    (0 ≤ exampleFarRight.m_pSprite.bmWidth ∧ 0 ≤ exampleFarRight.m_pSprite.bmHeight ∧
        0 ≤ examplePlayer1.m_pSprite.bmWidth ∧ 0 ≤ examplePlayer1.m_pSprite.bmHeight) ∧
      spriteRect exampleFarRight.m_pSprite = ⟨2147483615, 368, -2147483648, 432⟩ ∧
      spriteRect examplePlayer1.m_pSprite = ⟨68, 368, 132, 432⟩ ∧
      ¬ strictIntersect (spriteRect exampleFarRight.m_pSprite)
          (spriteRect examplePlayer1.m_pSprite) ∧
      overlapTest (spriteRect exampleFarRight.m_pSprite)
          (spriteRect examplePlayer1.m_pSprite) = false ∧
      mirroredTest (spriteRect exampleFarRight.m_pSprite)
          (spriteRect examplePlayer1.m_pSprite) = true ∧
      Collision exampleFarRight examplePlayer1 = true := by
  refine ⟨⟨?_, ?_, ?_, ?_⟩, ?_, ?_, ?_, ?_, ?_, ?_⟩ <;> decide!

/-- C2, amended: for players whose sprites have non-negative width and height
and whose right box edge `x + width/2` is below `2147483648`, so that it fits
a `LONG`, `Collision` returns true exactly when the two computed boxes pass
the single strict interval-intersection test; the mirrored second test is
never true; and two boxes that share only an edge (`A.right = B.left`) do not
collide. -/
theorem C2_Collision_iff_strictIntersect (A B : CPlayer)
    (hAw : 0 ≤ A.m_pSprite.bmWidth) (_hAh : 0 ≤ A.m_pSprite.bmHeight)
    (hBw : 0 ≤ B.m_pSprite.bmWidth) (_hBh : 0 ≤ B.m_pSprite.bmHeight)
    (hAr : A.m_pSprite.mPosition.x + ((cdiv A.m_pSprite.width 2 : Int) : ℚ) < 2147483648)
    (hBr : B.m_pSprite.mPosition.x + ((cdiv B.m_pSprite.width 2 : Int) : ℚ) < 2147483648) :
    (Collision A B = true ↔
        strictIntersect (spriteRect A.m_pSprite) (spriteRect B.m_pSprite)) ∧
      mirroredTest (spriteRect A.m_pSprite) (spriteRect B.m_pSprite) = false ∧
      ((spriteRect A.m_pSprite).right = (spriteRect B.m_pSprite).left →
        Collision A B = false) := by
  have hm : mirroredTest (spriteRect A.m_pSprite) (spriteRect B.m_pSprite) = false :=
    mirroredTest_false_of_ordered _ _ (spriteRect_left_le_right _ hBw hBr)
      (spriteRect_left_le_right _ hAw hAr)
  have hiff : Collision A B = true ↔
      strictIntersect (spriteRect A.m_pSprite) (spriteRect B.m_pSprite) := by
    rw [← overlapTest_iff]
    unfold Collision
    simp [hm]
  refine ⟨hiff, hm, ?_⟩
  intro hedge
  rw [← Bool.not_eq_true, hiff]
  unfold strictIntersect
  omega

/-- Witness for C2: the crafts at `(100, 400)` and `(164, 400)`, both 64 wide,
have boxes that share the edge `132` and are not reported as colliding. -/
theorem C2_Collision_iff_strictIntersect_witness :
    (0 ≤ examplePlayer1.m_pSprite.bmWidth ∧ 0 ≤ examplePlayer1.m_pSprite.bmHeight ∧
      0 ≤ exampleTouching.m_pSprite.bmWidth ∧ 0 ≤ exampleTouching.m_pSprite.bmHeight ∧
      examplePlayer1.m_pSprite.mPosition.x +
        ((cdiv examplePlayer1.m_pSprite.width 2 : Int) : ℚ) < 2147483648 ∧
      exampleTouching.m_pSprite.mPosition.x +
        ((cdiv exampleTouching.m_pSprite.width 2 : Int) : ℚ) < 2147483648) ∧
      (spriteRect examplePlayer1.m_pSprite).right = 132 ∧
      (spriteRect exampleTouching.m_pSprite).left = 132 ∧
      Collision examplePlayer1 exampleTouching = false := by
  have hr : (spriteRect examplePlayer1.m_pSprite).right = 132 := by decide!
  have hl : (spriteRect exampleTouching.m_pSprite).left = 132 := by decide!
  exact ⟨⟨by decide, by decide, by decide, by decide, by decide!, by decide!⟩, hr, hl,
    (C2_Collision_iff_strictIntersect examplePlayer1 exampleTouching
      (by decide) (by decide) (by decide) (by decide) (by decide!) (by decide!)).2.2
      (hr.trans hl.symm)⟩

/-! ## Facing direction: specification properties -/

/-- C3: one `RotateLeft` call maps Forward to Left, Left to Backward, Backward
to Right and Right to Forward; four consecutive calls return the facing to
its starting value; and from Forward the four calls show, in this order, the
facings Left, Backward, Right, Forward with the bitmaps of those facings. -/
theorem C3_RotateLeft_cycle (dims : String → Int × Int) (p : CPlayer) :
    (RotateLeft dims { p with rotateDirection := .DIR_FORWARD }).rotateDirection
        = .DIR_LEFT ∧
      (RotateLeft dims { p with rotateDirection := .DIR_LEFT }).rotateDirection
        = .DIR_BACKWARD ∧
      (RotateLeft dims { p with rotateDirection := .DIR_BACKWARD }).rotateDirection
        = .DIR_RIGHT ∧
      (RotateLeft dims { p with rotateDirection := .DIR_RIGHT }).rotateDirection
        = .DIR_FORWARD ∧
      (RotateLeft dims p).rotateDirection = nextFacing p.rotateDirection ∧
      (RotateLeft dims (RotateLeft dims (RotateLeft dims (RotateLeft dims p)))).rotateDirection
        = p.rotateDirection ∧
      rotateTrace dims 4 { p with rotateDirection := .DIR_FORWARD } =
        [(.DIR_LEFT, "data/planeimgandmaskLeft.bmp"),
         (.DIR_BACKWARD, "data/planeimgandmaskk.bmp"),
         (.DIR_RIGHT, "data/planeimgandmaskRight.bmp"),
         (.DIR_FORWARD, "data/planeimgandmask.bmp")] := by
  refine ⟨rfl, rfl, rfl, rfl, ?_, ?_, rfl⟩
  · cases h : p.rotateDirection <;> simp [RotateLeft, h, nextFacing]
  · cases h : p.rotateDirection <;> simp [RotateLeft, h]

/-- C4: for every player state, `RotateLeft` leaves the position and the
velocity of the craft as they were, and also the lives, the cooldown, the
projectiles, the explosion state, the sound state and its timer: only the
facing and the sprite bitmap (with its size) can change. -/
theorem C4_RotateLeft_frame (dims : String → Int × Int) (p : CPlayer) :
    (RotateLeft dims p).m_pSprite.mPosition = p.m_pSprite.mPosition ∧
      (RotateLeft dims p).m_pSprite.mVelocity = p.m_pSprite.mVelocity ∧
      (RotateLeft dims p).playerLives = p.playerLives ∧
      (RotateLeft dims p).fireCooldown = p.fireCooldown ∧
      (RotateLeft dims p).bullets = p.bullets ∧
      (RotateLeft dims p).bullet = p.bullet ∧
      (RotateLeft dims p).m_bExplosion = p.m_bExplosion ∧
      (RotateLeft dims p).m_iExplosionFrame = p.m_iExplosionFrame ∧
      (RotateLeft dims p).m_pExplosionSprite = p.m_pExplosionSprite ∧
      (RotateLeft dims p).m_eSpeedState = p.m_eSpeedState ∧
      (RotateLeft dims p).m_fTimer = p.m_fTimer := by
  cases h : p.rotateDirection <;> simp [RotateLeft, h]

/-! ## Weapon cooldown: lemmas -/

theorem shootFires_iff (dims : String → Int × Int) (p : CPlayer) (x : Int) :
    shootFires dims p x ↔ p.fireCooldown < 25 := by
  unfold shootFires
  by_cases h : p.fireCooldown < 25
  · simp [Shoot, h]
  · simp [Shoot, h]

theorem Shoot_cooldown_of_fires (dims : String → Int × Int) (p : CPlayer) (x : Int)
    (h : shootFires dims p x) : (Shoot dims p x).fireCooldown = 100 := by
  rw [shootFires_iff] at h
  simp [Shoot, h]

theorem Shoot_cooldown_ge (dims : String → Int × Int) (p : CPlayer) (x : Int) :
    p.fireCooldown ≤ (Shoot dims p x).fireCooldown := by
  by_cases h : p.fireCooldown < 25
  · have h100 : (Shoot dims p x).fireCooldown = 100 := by simp [Shoot, h]
    omega
  · have hsame : Shoot dims p x = p := by simp [Shoot, h]
    rw [hsame]

theorem Draw_cooldown_ge (p : CPlayer) : p.fireCooldown - 1 ≤ (Draw p).fireCooldown := by
  unfold Draw
  split_ifs with h
  · exact le_refl _
  · omega

theorem runOps_append (dims : String → Int × Int) (p : CPlayer) (as bs : List PlayerOp) :
    runOps dims p (as ++ bs) = runOps dims (runOps dims p as) bs := by
  induction as generalizing p with
  | nil => rfl
  | cons a as ih => exact ih (PlayerOp.apply dims p a)

/-- Along any sequence of operations the cooldown falls by at most one per
`Draw` call. -/
theorem runOps_cooldown_ge (dims : String → Int × Int) (ops : List PlayerOp) (p : CPlayer) :
    p.fireCooldown - (drawCount ops : Int) ≤ (runOps dims p ops).fireCooldown := by
  induction ops generalizing p with
  | nil => simp [runOps, drawCount]
  | cons op ops ih =>
    cases op with
    | draw =>
      have h1 := ih (Draw p)
      have h2 := Draw_cooldown_ge p
      simp only [runOps, PlayerOp.apply, drawCount, Nat.cast_add, Nat.cast_one]
      omega
    | shoot x =>
      have h1 := ih (Shoot dims p x)
      have h2 := Shoot_cooldown_ge dims p x
      simp only [runOps, PlayerOp.apply, drawCount]
      omega

/-! ## Weapon cooldown: specification properties -/

/-- C5: `Shoot` is gated by the cooldown.  If the cooldown is below 25 at the
call, `Shoot` appends exactly one projectile to the collection and sets the
cooldown to 100, changing nothing else; otherwise (cooldown at least 25) the
state is left exactly as it was. -/
theorem C5_Shoot_gated (dims : String → Int × Int) (p : CPlayer) (x : Int) :
    (p.fireCooldown < 25 ∧
        (∃ b : Sprite, Shoot dims p x = { p with bullets := p.bullets ++ [b], fireCooldown := 100 }) ∧
        (Shoot dims p x).bullets.length = p.bullets.length + 1 ∧
        (Shoot dims p x).fireCooldown = 100) ∨
      (25 ≤ p.fireCooldown ∧ Shoot dims p x = p) := by
  by_cases h : p.fireCooldown < 25
  · left
    refine ⟨h, ?_, ?_, ?_⟩
    · unfold Shoot
      rw [if_pos h]
      exact ⟨_, rfl⟩
    · simp [Shoot, h]
    · simp [Shoot, h]
  · right
    exact ⟨by omega, by simp [Shoot, h]⟩

/-- C6: minimum inter-shot interval.  In every sequence of `Draw` calls and
`Shoot` attempts on one player, from any starting state, if a `Shoot` fires
and a later `Shoot` fires too, then at least 76 `Draw` calls lie between the
two (`pre` is what precedes the first, `mid` what lies between them). -/
theorem C6_min_intershot_interval (dims : String → Int × Int) (p0 : CPlayer)
    (pre mid : List PlayerOp) (x y : Int)
    (h1 : shootFires dims (runOps dims p0 pre) x)
    (h2 : shootFires dims (runOps dims p0 (pre ++ PlayerOp.shoot x :: mid)) y) :
    76 ≤ drawCount mid := by
  have hc := Shoot_cooldown_of_fires dims _ x h1
  rw [shootFires_iff] at h2
  rw [runOps_append] at h2
  simp only [runOps, PlayerOp.apply] at h2
  have hge := runOps_cooldown_ge dims mid (Shoot dims (runOps dims p0 pre) x)
  omega

set_option maxRecDepth 8000 in
/-- Witness for C6: a new player (cooldown 30) fires after 6 `Draw` calls and
fires again after exactly 76 more. -/
theorem C6_min_intershot_interval_witness :
    shootFires exampleDims (runOps exampleDims (CPlayer.new exampleDims 1)
        (List.replicate 6 PlayerOp.draw)) 1 ∧
      shootFires exampleDims (runOps exampleDims (CPlayer.new exampleDims 1)
        (List.replicate 6 PlayerOp.draw ++ PlayerOp.shoot 1 :: List.replicate 76 PlayerOp.draw)) 1 ∧
      76 ≤ drawCount (List.replicate 76 PlayerOp.draw) :=
  ⟨by decide, by decide,
    C6_min_intershot_interval exampleDims (CPlayer.new exampleDims 1)
      (List.replicate 6 PlayerOp.draw) (List.replicate 76 PlayerOp.draw) 1 1
      (by decide) (by decide)⟩

/-! ## Explosion: lemmas -/

/-- While the counter stays below the frame count, `k` advances of an exploding
player all report "incomplete" and move the counter by `k`. -/
theorem advanceN_running (k : Nat) (p : CPlayer) (hexp : p.m_bExplosion = true)
    (hlt : p.m_iExplosionFrame + (k : Int) < p.m_pExplosionSprite.mFrameCount) :
    (advanceN k p).1 = List.replicate k true ∧
      (advanceN k p).2.m_bExplosion = true ∧
      (advanceN k p).2.m_iExplosionFrame = p.m_iExplosionFrame + (k : Int) ∧
      (advanceN k p).2.m_pExplosionSprite.mFrameCount = p.m_pExplosionSprite.mFrameCount := by
  induction k generalizing p with
  | zero => simp [advanceN, hexp]
  | succ k ih =>
    have hne : ¬ (p.m_iExplosionFrame + 1 = p.m_pExplosionSprite.mFrameCount) := by
      push_cast at hlt
      omega
    have hstep : AdvanceExplosion p =
        (true, { p with
          m_pExplosionSprite := p.m_pExplosionSprite.SetFrame p.m_iExplosionFrame
          m_iExplosionFrame := p.m_iExplosionFrame + 1 }) := by
      simp [AdvanceExplosion, hexp, AnimatedSprite.GetFrameCount, AnimatedSprite.SetFrame, hne]
    have hrec := ih { p with
        m_pExplosionSprite := p.m_pExplosionSprite.SetFrame p.m_iExplosionFrame
        m_iExplosionFrame := p.m_iExplosionFrame + 1 } hexp
      (by simp only [AnimatedSprite.SetFrame]; push_cast at hlt; omega)
    simp only [advanceN, hstep]
    refine ⟨?_, hrec.2.1, ?_, ?_⟩
    · rw [hrec.1]; rfl
    · rw [hrec.2.2.1]; push_cast; omega
    · rw [hrec.2.2.2]; rfl

/-- The last of `k + 1` advances, split off. -/
theorem advanceN_succ_last (k : Nat) (q : CPlayer) :
    advanceN (k + 1) q =
      ((advanceN k q).1 ++ [(AdvanceExplosion (advanceN k q).2).1],
        (AdvanceExplosion (advanceN k q).2).2) := by
  induction k generalizing q with
  | zero => simp [advanceN]
  | succ k ih =>
    conv_lhs => rw [advanceN]
    rw [ih (AdvanceExplosion q).2]
    simp [advanceN]

/-- An explosion triggered with the frame counter at 0 (as the constructor and
every completed sequence leave it) on a 17-frame animation is exactly 17
advances long: 16 "incomplete" reports with the player exploding, then
"complete", after which the player is not exploding and the counter is 0. -/
theorem Explode_sequence_from_zero (p : CPlayer) (h0 : p.m_iExplosionFrame = 0)
    (h17 : p.m_pExplosionSprite.mFrameCount = 17) :
    (advanceN 17 (Explode p)).1 = List.replicate 16 true ++ [false] ∧
      (advanceN 16 (Explode p)).2.m_bExplosion = true ∧
      (advanceN 17 (Explode p)).2.m_bExplosion = false ∧
      (advanceN 17 (Explode p)).2.m_iExplosionFrame = 0 := by
  have hrun := advanceN_running 16 (Explode p) rfl
    (by simp [Explode, AnimatedSprite.SetFrame, h0, h17])
  have hf : (advanceN 16 (Explode p)).2.m_iExplosionFrame = 16 := by
    rw [hrun.2.2.1]; simp [Explode, h0]
  have hc : (advanceN 16 (Explode p)).2.m_pExplosionSprite.mFrameCount = 17 := by
    rw [hrun.2.2.2]; simp [Explode, AnimatedSprite.SetFrame, h17]
  have hlast : (AdvanceExplosion (advanceN 16 (Explode p)).2).1 = false ∧
      (AdvanceExplosion (advanceN 16 (Explode p)).2).2.m_bExplosion = false ∧
      (AdvanceExplosion (advanceN 16 (Explode p)).2).2.m_iExplosionFrame = 0 := by
    simp [AdvanceExplosion, hrun.2.1, hf, hc, AnimatedSprite.GetFrameCount,
      AnimatedSprite.SetFrame]
  rw [advanceN_succ_last 16 (Explode p)]
  exact ⟨by rw [hrun.1, hlast.1], hrun.2.1, hlast.2.1, hlast.2.2⟩

/-! ## Explosion: specification properties -/

/-- C7 (the code departs from the claim): `Explode` called on a player that is
already exploding does not restart the frame counter.  With the counter at 5,
the sequence that starts at that `Explode` call reports "complete" on the
12th `AdvanceExplosion` call, not the 17th; the player is idle with counter 0
after 12 calls, and the 17th call reports "incomplete". -/
theorem C7_retrigger_sequence_is_short :
    exampleMidExplosion.m_bExplosion = true ∧
      exampleMidExplosion.m_iExplosionFrame = 5 ∧
      (Explode exampleMidExplosion).m_pExplosionSprite.mCurrentFrame = 0 ∧
      (Explode exampleMidExplosion).m_iExplosionFrame = 5 ∧
      (advanceN 12 (Explode exampleMidExplosion)).1 = List.replicate 11 true ++ [false] ∧
      (advanceN 12 (Explode exampleMidExplosion)).2.m_bExplosion = false ∧
      (advanceN 12 (Explode exampleMidExplosion)).2.m_iExplosionFrame = 0 ∧
      (advanceN 17 (Explode exampleMidExplosion)).1 =
        List.replicate 11 true ++ [false] ++ List.replicate 5 true := by
  refine ⟨?_, ?_, ?_, ?_, ?_, ?_, ?_, ?_⟩ <;> decide

/-- C8, counterexample: a craft drifting with velocity `(3, 0)` still has that
velocity after `Explode`; the velocity is not reset to zero. -/
theorem C8_Explode_keeps_velocity_counterexample :
    (Explode exampleDrifting).m_bExplosion = true ∧
      (Explode exampleDrifting).m_pSprite.mVelocity = ⟨3, 0⟩ ∧
      (Explode exampleDrifting).m_pSprite.mVelocity ≠ ⟨0, 0⟩ := by
  refine ⟨rfl, rfl, ?_⟩
  simp [Explode, exampleDrifting]

/-- C8, amended: for every player state, `Explode` puts the player in the
exploding state and sets the position of the explosion visual to the current
position of the craft; it leaves the craft sprite, its velocity included,
as it was.  The velocity is reset by `AdvanceExplosion`: every call that
reports "complete" leaves the velocity at zero. -/
theorem C8_Explode_effect (p q : CPlayer) :
    (Explode p).m_bExplosion = true ∧
      (Explode p).m_pExplosionSprite.mPosition = p.m_pSprite.mPosition ∧
      (Explode p).m_pSprite = p.m_pSprite ∧
      (Explode p).m_pSprite.mVelocity = p.m_pSprite.mVelocity ∧
      ((AdvanceExplosion q).1 = true ∨ (AdvanceExplosion q).2.m_pSprite.mVelocity = ⟨0, 0⟩) := by
  refine ⟨rfl, rfl, rfl, rfl, ?_⟩
  by_cases h1 : q.m_bExplosion = true
  · by_cases h2 : q.m_iExplosionFrame + 1 = q.m_pExplosionSprite.mFrameCount
    · right
      simp [AdvanceExplosion, h1, h2, AnimatedSprite.GetFrameCount, AnimatedSprite.SetFrame]
    · left
      simp [AdvanceExplosion, h1, h2, AnimatedSprite.GetFrameCount, AnimatedSprite.SetFrame]
  · left
    simp [AdvanceExplosion, h1]

/-! ## Movement: lemmas -/

theorem cdiv_two_bounds {w : Int} (h : 0 ≤ w) : 0 ≤ cdiv w 2 ∧ 2 * cdiv w 2 ≤ w := by
  unfold cdiv
  rw [Int.tdiv_eq_ediv h (by decide)]
  omega

theorem applyImpulses_frame (s : Sprite) (d : Nat) :
    (applyImpulses s d).mPosition = s.mPosition ∧
      (applyImpulses s d).bmWidth = s.bmWidth ∧
      (applyImpulses s d).bmHeight = s.bmHeight := by
  unfold applyImpulses
  refine ⟨?_, ?_, ?_⟩ <;> (simp only []; split_ifs <;> rfl)

theorem applyImpulses_velocity (s : Sprite) (d : Nat) :
    (applyImpulses s d).mVelocity.x = s.mVelocity.x + impulseX d ∧
      (applyImpulses s d).mVelocity.y = s.mVelocity.y + impulseY d := by
  unfold applyImpulses impulseX impulseY
  refine ⟨?_, ?_⟩ <;> (simp only []; split_ifs <;> simp <;> ring)

theorem clampXLow_frame (s : Sprite) :
    (clampXLow s).bmWidth = s.bmWidth ∧ (clampXLow s).bmHeight = s.bmHeight ∧
      (clampXLow s).mPosition.y = s.mPosition.y ∧
      (clampXLow s).mVelocity.y = s.mVelocity.y := by
  unfold clampXLow
  split_ifs <;> exact ⟨rfl, rfl, rfl, rfl⟩

theorem clampXHigh_frame (scr : Screen) (s : Sprite) :
    (clampXHigh scr s).bmWidth = s.bmWidth ∧ (clampXHigh scr s).bmHeight = s.bmHeight ∧
      (clampXHigh scr s).mPosition.y = s.mPosition.y ∧
      (clampXHigh scr s).mVelocity.y = s.mVelocity.y := by
  unfold clampXHigh
  split_ifs <;> exact ⟨rfl, rfl, rfl, rfl⟩

theorem clampYLow_frame (s : Sprite) :
    (clampYLow s).bmWidth = s.bmWidth ∧ (clampYLow s).bmHeight = s.bmHeight ∧
      (clampYLow s).mPosition.x = s.mPosition.x ∧
      (clampYLow s).mVelocity.x = s.mVelocity.x := by
  unfold clampYLow
  split_ifs <;> exact ⟨rfl, rfl, rfl, rfl⟩

theorem clampYHigh_frame (scr : Screen) (s : Sprite) :
    (clampYHigh scr s).bmWidth = s.bmWidth ∧ (clampYHigh scr s).bmHeight = s.bmHeight ∧
      (clampYHigh scr s).mPosition.x = s.mPosition.x ∧
      (clampYHigh scr s).mVelocity.x = s.mVelocity.x := by
  unfold clampYHigh
  split_ifs <;> exact ⟨rfl, rfl, rfl, rfl⟩

/-- After the two X clamps the X position is between half the width and the
screen width minus half the width, when the screen is at least as wide as
the sprite. -/
theorem clampX_bounds (scr : Screen) (s : Sprite) (hw : 0 ≤ s.bmWidth)
    (hcx : s.bmWidth ≤ scr.cx) :
    ((cdiv s.bmWidth 2 : Int) : ℚ) ≤ (clampXHigh scr (clampXLow s)).mPosition.x ∧
      (clampXHigh scr (clampXLow s)).mPosition.x ≤ ((scr.cx - cdiv s.bmWidth 2 : Int) : ℚ) := by
  obtain ⟨hc0, hc2⟩ := cdiv_two_bounds hw
  have hc2q : (2 : ℚ) * ((cdiv s.bmWidth 2 : Int) : ℚ) ≤ (s.bmWidth : ℚ) := by exact_mod_cast hc2
  have hcxq : (s.bmWidth : ℚ) ≤ (scr.cx : ℚ) := by exact_mod_cast hcx
  have hc0q : (0 : ℚ) ≤ ((cdiv s.bmWidth 2 : Int) : ℚ) := by exact_mod_cast hc0
  unfold clampXHigh clampXLow xHighGuard xLowGuard Sprite.width
  split_ifs with h1 h2 h2
  · simp only [Int.cast_sub]
    constructor <;> linarith
  · simp only [Int.cast_sub, not_lt] at h2 ⊢
    constructor <;> linarith
  · simp only [Int.cast_sub]
    constructor <;> linarith
  · simp only [Int.cast_sub, not_lt] at h1 h2 ⊢
    constructor <;> linarith

/-- After the two Y clamps the Y position is between half the height and the
screen height minus the full height, when the screen is at least one and a
half sprites high. -/
theorem clampY_bounds (scr : Screen) (s : Sprite) (hh : 0 ≤ s.bmHeight)
    (hcy : s.bmHeight + cdiv s.bmHeight 2 ≤ scr.cy) :
    ((cdiv s.bmHeight 2 : Int) : ℚ) ≤ (clampYHigh scr (clampYLow s)).mPosition.y ∧
      (clampYHigh scr (clampYLow s)).mPosition.y ≤ ((scr.cy - s.bmHeight : Int) : ℚ) := by
  obtain ⟨hc0, hc2⟩ := cdiv_two_bounds hh
  have hc2q : (2 : ℚ) * ((cdiv s.bmHeight 2 : Int) : ℚ) ≤ (s.bmHeight : ℚ) := by exact_mod_cast hc2
  have hcyq : (s.bmHeight : ℚ) + ((cdiv s.bmHeight 2 : Int) : ℚ) ≤ (scr.cy : ℚ) := by
    exact_mod_cast hcy
  have hc0q : (0 : ℚ) ≤ ((cdiv s.bmHeight 2 : Int) : ℚ) := by exact_mod_cast hc0
  unfold clampYHigh clampYLow yHighGuard yLowGuard Sprite.height
  split_ifs with h1 h2 h2
  · simp only [Int.cast_sub]
    constructor <;> linarith
  · simp only [Int.cast_sub, not_lt] at h2 ⊢
    constructor <;> linarith
  · simp only [Int.cast_sub]
    constructor <;> linarith
  · simp only [Int.cast_sub, not_lt] at h1 h2 ⊢
    constructor <;> linarith

/-- When one of the two X clamps is taken, the X velocity is zero after them. -/
theorem clampX_velocity (scr : Screen) (s : Sprite)
    (h : xLowGuard s ∨ xHighGuard scr (clampXLow s)) :
    (clampXHigh scr (clampXLow s)).mVelocity.x = 0 := by
  by_cases h2 : xHighGuard scr (clampXLow s)
  · simp [clampXHigh, h2]
  · have h1 : xLowGuard s := h.resolve_right h2
    rw [clampXHigh, if_neg h2, clampXLow, if_pos h1]

/-- When one of the two Y clamps is taken, the Y velocity is zero after them. -/
theorem clampY_velocity (scr : Screen) (s : Sprite)
    (h : yLowGuard s ∨ yHighGuard scr (clampYLow s)) :
    (clampYHigh scr (clampYLow s)).mVelocity.y = 0 := by
  by_cases h2 : yHighGuard scr (clampYLow s)
  · simp [clampYHigh, h2]
  · have h1 : yLowGuard s := h.resolve_right h2
    rw [clampYHigh, if_neg h2, clampYLow, if_pos h1]

/-! ## Movement: specification properties -/

/-- C9, counterexample: on a screen 800 by 120, at least as large as the 100 by
100 sprite, a craft at rest at `(400, 60)` has its footprint inside the
screen; `Move` with no direction requested takes the fourth clamp
(`60 > 120 - 100`) and puts it at `y = 20`, less than the half-height 50, so
the footprint is no longer inside the screen. -/
theorem C9_Move_footprint_counterexample :
    (exampleLargeCraft.m_pSprite.bmWidth ≤ exampleLowScreen.cx ∧
        exampleLargeCraft.m_pSprite.bmHeight ≤ exampleLowScreen.cy) ∧
      footprintInside exampleLowScreen exampleLargeCraft.m_pSprite ∧
      (Move exampleLowScreen exampleLargeCraft 0).m_pSprite.mPosition = ⟨400, 20⟩ ∧
      ¬ footprintInside exampleLowScreen (Move exampleLowScreen exampleLargeCraft 0).m_pSprite := by
  have hc : cdiv 100 2 = 50 := by decide
  have hx1 : ¬ xLowGuard exampleLargeCraft.m_pSprite := by
    norm_num [xLowGuard, exampleLargeCraft, Sprite.width]
  have hx2 : ¬ xHighGuard exampleLowScreen exampleLargeCraft.m_pSprite := by
    norm_num [xHighGuard, exampleLargeCraft, exampleLowScreen, Sprite.width, hc]
  have hy1 : ¬ yLowGuard exampleLargeCraft.m_pSprite := by
    norm_num [yLowGuard, exampleLargeCraft, Sprite.height]
  have hy2 : yHighGuard exampleLowScreen exampleLargeCraft.m_pSprite := by
    norm_num [yHighGuard, exampleLargeCraft, exampleLowScreen, Sprite.height]
  have hmove : (Move exampleLowScreen exampleLargeCraft 0).m_pSprite =
      { exampleLargeCraft.m_pSprite with mPosition := ⟨400, 20⟩ } := by
    have e1 : clampXLow exampleLargeCraft.m_pSprite = exampleLargeCraft.m_pSprite := by
      rw [clampXLow, if_neg hx1]
    have e2 : clampXHigh exampleLowScreen exampleLargeCraft.m_pSprite
        = exampleLargeCraft.m_pSprite := by
      rw [clampXHigh, if_neg hx2]
    have e3 : clampYLow exampleLargeCraft.m_pSprite = exampleLargeCraft.m_pSprite := by
      rw [clampYLow, if_neg hy1]
    rw [Move]
    simp only [e1, e2, e3]
    rw [clampYHigh, if_pos hy2]
    norm_num [applyImpulses, hasDir, DIRECTION.val, exampleLargeCraft, exampleLowScreen,
      examplePlayer1, Sprite.height, Sprite.load]
  refine ⟨⟨by decide, by decide⟩, ?_, by rw [hmove], ?_⟩
  · norm_num [footprintInside, exampleLargeCraft, exampleLowScreen, Sprite.width,
      Sprite.height, hc]
  · intro hin
    have hy := hin.2.2.1
    rw [hmove] at hy
    norm_num [exampleLargeCraft, Sprite.height, hc] at hy

/-- C9, amended: for every starting position and velocity, every direction
bitmask and every sprite of non-negative size, if the screen is at least as
wide as the sprite and at least as high as the sprite's height plus half
its height, then after `Move` the footprint lies inside the screen:
half-width <= x <= screenWidth - half-width and
half-height <= y <= screenHeight - half-height. -/
theorem C9_Move_footprint_inside (scr : Screen) (p : CPlayer) (ulDirection : Nat)
    (hw : 0 ≤ p.m_pSprite.bmWidth) (hh : 0 ≤ p.m_pSprite.bmHeight)
    (hcx : p.m_pSprite.bmWidth ≤ scr.cx)
    (hcy : p.m_pSprite.bmHeight + cdiv p.m_pSprite.bmHeight 2 ≤ scr.cy) :
    footprintInside scr (Move scr p ulDirection).m_pSprite := by
  have hX := clampX_bounds scr p.m_pSprite hw hcx
  have hdw : (clampXHigh scr (clampXLow p.m_pSprite)).bmWidth = p.m_pSprite.bmWidth := by
    rw [(clampXHigh_frame _ _).1, (clampXLow_frame _).1]
  have hdh : (clampXHigh scr (clampXLow p.m_pSprite)).bmHeight = p.m_pSprite.bmHeight := by
    rw [(clampXHigh_frame _ _).2.1, (clampXLow_frame _).2.1]
  have hY := clampY_bounds scr (clampXHigh scr (clampXLow p.m_pSprite))
    (by rw [hdh]; exact hh) (by rw [hdh]; exact hcy)
  rw [hdh] at hY
  obtain ⟨hc0, hc2⟩ := cdiv_two_bounds hh
  have hle : ((scr.cy - p.m_pSprite.bmHeight : Int) : ℚ) ≤
      ((scr.cy - cdiv p.m_pSprite.bmHeight 2 : Int) : ℚ) := by
    have : scr.cy - p.m_pSprite.bmHeight ≤ scr.cy - cdiv p.m_pSprite.bmHeight 2 := by omega
    exact_mod_cast this
  unfold footprintInside Move
  simp only [Sprite.width, Sprite.height, (applyImpulses_frame _ _).1,
    (applyImpulses_frame _ _).2.1, (applyImpulses_frame _ _).2.2,
    (clampYHigh_frame _ _).1, (clampYHigh_frame _ _).2.1, (clampYHigh_frame _ _).2.2.1,
    (clampYLow_frame _).1, (clampYLow_frame _).2.1, (clampYLow_frame _).2.2.1, hdw, hdh]
  exact ⟨hX.1, hX.2, hY.1, le_trans hY.2 hle⟩

/-- Witness for C9: player 1 with a 64 by 64 sprite, off a 1920 by 1080 screen
at `(-50, 5000)`.  `Move` takes the first clamp (`x` becomes `64 + 50`) and
the fourth (`y` becomes `1080 - 64`) and the footprint is inside the
screen. -/
theorem C9_Move_footprint_inside_witness :
    (0 ≤ exampleOffScreen.m_pSprite.bmWidth ∧ 0 ≤ exampleOffScreen.m_pSprite.bmHeight ∧
        exampleOffScreen.m_pSprite.bmWidth ≤ exampleScreen.cx ∧
        exampleOffScreen.m_pSprite.bmHeight + cdiv exampleOffScreen.m_pSprite.bmHeight 2
          ≤ exampleScreen.cy) ∧
      ¬ footprintInside exampleScreen exampleOffScreen.m_pSprite ∧
      (Move exampleScreen exampleOffScreen 5).m_pSprite.mPosition = ⟨114, 1016⟩ ∧
      footprintInside exampleScreen (Move exampleScreen exampleOffScreen 5).m_pSprite :=
  ⟨⟨by decide, by decide, by decide, by decide⟩, by decide!, by decide!,
    C9_Move_footprint_inside exampleScreen exampleOffScreen 5
      (by decide) (by decide) (by decide) (by decide)⟩

/-- C10, counterexample: player 1 at the left edge (`x = 0`, velocity
`(-5, 0)`) is clamped on X by `Move`, and with `DIR_LEFT` requested its X
velocity after the call is `-1.1`, not zero. -/
theorem C10_Move_clamped_velocity_counterexample :
    clampsX exampleScreen exampleAtLeftEdge ∧
      (Move exampleScreen exampleAtLeftEdge DIRECTION.DIR_LEFT.val).m_pSprite.mVelocity.x
        = -(11 / 10) ∧
      (Move exampleScreen exampleAtLeftEdge DIRECTION.DIR_LEFT.val).m_pSprite.mVelocity.x ≠ 0 := by
  have hc : clampsX exampleScreen exampleAtLeftEdge := by
    left
    simp [xLowGuard, exampleAtLeftEdge, examplePlayer1, Sprite.width, Sprite.load, exampleDims]
  have hv : (Move exampleScreen exampleAtLeftEdge DIRECTION.DIR_LEFT.val).m_pSprite.mVelocity.x
      = -(11 / 10) := by
    unfold Move
    simp only [(applyImpulses_velocity _ _).1, (clampYHigh_frame _ _).2.2.2,
      (clampYLow_frame _).2.2.2, clampX_velocity exampleScreen _ hc]
    have hl : hasDir DIRECTION.DIR_LEFT.val .DIR_LEFT = true := by decide
    have hr : hasDir DIRECTION.DIR_LEFT.val .DIR_RIGHT = false := by decide
    norm_num [impulseX, hl, hr]
  refine ⟨hc, hv, ?_⟩
  rw [hv]
  norm_num

/-- C10, amended: for every starting state and every direction bitmask, if
`Move` clamps the position on an axis (one of the two `if`s of that axis is
taken), then after `Move` the velocity on that axis is exactly the impulse of
this call on that axis (zero, minus 1.1 for Left or Forward, plus 1.1 for
Right or Backward), and so exactly zero when the bitmask requests neither
direction of that axis. -/
theorem C10_Move_clamped_velocity (scr : Screen) (p : CPlayer) (ulDirection : Nat) :
    (clampsX scr p →
        (Move scr p ulDirection).m_pSprite.mVelocity.x = impulseX ulDirection ∧
        (hasDir ulDirection .DIR_LEFT = false ∧ hasDir ulDirection .DIR_RIGHT = false →
          (Move scr p ulDirection).m_pSprite.mVelocity.x = 0)) ∧
      (clampsY scr p →
        (Move scr p ulDirection).m_pSprite.mVelocity.y = impulseY ulDirection ∧
        (hasDir ulDirection .DIR_FORWARD = false ∧ hasDir ulDirection .DIR_BACKWARD = false →
          (Move scr p ulDirection).m_pSprite.mVelocity.y = 0)) := by
  constructor
  · intro hc
    have hv : (Move scr p ulDirection).m_pSprite.mVelocity.x = impulseX ulDirection := by
      unfold Move
      simp only [(applyImpulses_velocity _ _).1, (clampYHigh_frame _ _).2.2.2,
        (clampYLow_frame _).2.2.2, clampX_velocity scr _ hc, zero_add]
    refine ⟨hv, ?_⟩
    rintro ⟨hl, hr⟩
    rw [hv]
    simp [impulseX, hl, hr]
  · intro hc
    have hv : (Move scr p ulDirection).m_pSprite.mVelocity.y = impulseY ulDirection := by
      unfold Move
      simp only [(applyImpulses_velocity _ _).2, clampY_velocity scr _ hc, zero_add]
    refine ⟨hv, ?_⟩
    rintro ⟨hf, hb⟩
    rw [hv]
    simp [impulseY, hf, hb]

/-- Witness for C10: player 1 at the left edge is clamped on X and, asked to
move forward only, leaves `Move` with X velocity zero; player 2 at its start
position `(600, 0)` is clamped on Y and, asked to move left only, leaves
`Move` with Y velocity zero. -/
theorem C10_Move_clamped_velocity_witness :
    (clampsX exampleScreen exampleAtLeftEdge ∧
        (Move exampleScreen exampleAtLeftEdge 1).m_pSprite.mVelocity.x = 0) ∧
      (clampsY exampleScreen examplePlayer2 ∧
        (Move exampleScreen examplePlayer2 4).m_pSprite.mVelocity.y = 0) := by
  have hx : clampsX exampleScreen exampleAtLeftEdge := by
    left
    simp [xLowGuard, exampleAtLeftEdge, examplePlayer1, Sprite.width, Sprite.load, exampleDims]
  have hy : clampsY exampleScreen examplePlayer2 := by
    left
    simp [yLowGuard, (clampXHigh_frame _ _).2.2.1, (clampXHigh_frame _ _).2.1,
      (clampXLow_frame _).2.2.1, (clampXLow_frame _).2.1, examplePlayer2, Sprite.height,
      Sprite.load, exampleDims]
  exact ⟨⟨hx, ((C10_Move_clamped_velocity exampleScreen exampleAtLeftEdge 1).1 hx).2
      ⟨by decide, by decide⟩⟩,
    ⟨hy, ((C10_Move_clamped_velocity exampleScreen examplePlayer2 4).2 hy).2
      ⟨by decide, by decide⟩⟩⟩

/-! ## Projectiles: lemmas -/

theorem curBullet_concat (p : CPlayer) (pre : List Sprite) (b : Sprite) :
    ({ p with bullets := pre ++ [b] } : CPlayer).curBullet = b := by
  simp [CPlayer.curBullet]

theorem setCurBulletY_concat (p : CPlayer) (pre : List Sprite) (b : Sprite) (y : ℚ) :
    ({ p with bullets := pre ++ [b] } : CPlayer).setCurBulletY y =
      { p with bullets := pre ++ [{ b with mPosition := ⟨b.mPosition.x, y⟩ }] } := by
  simp [CPlayer.setCurBulletY]

theorem setCurBulletY_length (p : CPlayer) (y : ℚ) :
    (p.setCurBulletY y).bullets.length = p.bullets.length := by
  unfold CPlayer.setCurBulletY
  cases h : p.bullets.getLast? with
  | none => rfl
  | some b =>
    have hne : p.bullets ≠ [] := by
      intro hnil
      rw [hnil] at h
      simp at h
    have hpos : 0 < p.bullets.length := List.length_pos.mpr hne
    simp only [List.length_append, List.length_dropLast, List.length_singleton]
    omega

/-- The boolean returned by `bulletCollision` is the disjunction of the two
tests on the box of the victim and the box of the sprite `bullet` points at. -/
theorem bulletCollision_result (p1 p2 : CPlayer) (x : Int) :
    (bulletCollision p1 p2 x).1 =
      (overlapTest (spriteRect p2.m_pSprite) (spriteRect p1.curBullet) ||
        mirroredTest (spriteRect p2.m_pSprite) (spriteRect p1.curBullet)) := by
  unfold bulletCollision
  by_cases hx : x = 1 <;>
    cases h1 : overlapTest (spriteRect p2.m_pSprite) (spriteRect p1.curBullet) <;>
    cases h2 : mirroredTest (spriteRect p2.m_pSprite) (spriteRect p1.curBullet) <;>
    simp [hx, h1, h2]

/-- The shooter after `bulletCollision`: its current projectile is moved to
`y = -100` (`x == 1`) or `y = 2000` on a hit, and nothing is written on a
miss. -/
theorem bulletCollision_state (p1 p2 : CPlayer) (x : Int) :
    (bulletCollision p1 p2 x).2 =
      if (bulletCollision p1 p2 x).1 then p1.setCurBulletY (if x = 1 then -100 else 2000)
      else p1 := by
  unfold bulletCollision
  by_cases hx : x = 1 <;>
    cases h1 : overlapTest (spriteRect p2.m_pSprite) (spriteRect p1.curBullet) <;>
    cases h2 : mirroredTest (spriteRect p2.m_pSprite) (spriteRect p1.curBullet) <;>
    simp [hx, h1, h2]

/-! ## Projectiles: specification properties -/

/-- C16: `bulletCollision(shooter, victim, x)` looks only at the most recently
created projectile of the shooter.  Its result is a function of the box of
the victim and the box of that projectile alone; replacing the earlier
projectiles of the collection by any others (wherever they are) does not
change the result; on a hit only that last projectile is relocated, to
`y = -100` when `x == 1` and to `y = 2000` otherwise, on a miss nothing is
written; and the length of the collection is unchanged. -/
theorem C16_bulletCollision_last_only (shooter victim : CPlayer) (x : Int)
    (pre pre' : List Sprite) (b : Sprite) :
    (bulletCollision { shooter with bullets := pre ++ [b] } victim x).1 =
        (overlapTest (spriteRect victim.m_pSprite) (spriteRect b) ||
          mirroredTest (spriteRect victim.m_pSprite) (spriteRect b)) ∧
      (bulletCollision { shooter with bullets := pre' ++ [b] } victim x).1 =
        (bulletCollision { shooter with bullets := pre ++ [b] } victim x).1 ∧
      (bulletCollision { shooter with bullets := pre ++ [b] } victim x).2 =
        (if (bulletCollision { shooter with bullets := pre ++ [b] } victim x).1 then
          { shooter with bullets :=
              pre ++ [{ b with mPosition := ⟨b.mPosition.x, if x = 1 then -100 else 2000⟩ }] }
        else { shooter with bullets := pre ++ [b] }) ∧
      (bulletCollision shooter victim x).2.bullets.length = shooter.bullets.length ∧
      (bulletCollision shooter victim x).1 =
        (overlapTest (spriteRect victim.m_pSprite) (spriteRect shooter.curBullet) ||
          mirroredTest (spriteRect victim.m_pSprite) (spriteRect shooter.curBullet)) := by
  refine ⟨?_, ?_, ?_, ?_, bulletCollision_result shooter victim x⟩
  · rw [bulletCollision_result, curBullet_concat]
  · rw [bulletCollision_result, bulletCollision_result, curBullet_concat, curBullet_concat]
  · rw [bulletCollision_state, setCurBulletY_concat]
  · rw [bulletCollision_state]
    by_cases hhit : (bulletCollision shooter victim x).1 = true
    · rw [if_pos hhit]
      exact setCurBulletY_length _ _
    · rw [if_neg hhit]

/-! ## Frame update: lemmas -/

theorem Draw_frame (p : CPlayer) :
    (Draw p).m_pSprite = p.m_pSprite ∧ (Draw p).bullets = p.bullets ∧
      (Draw p).bullet = p.bullet ∧ (Draw p).playerLives = p.playerLives := by
  unfold Draw
  split_ifs <;> exact ⟨rfl, rfl, rfl, rfl⟩

theorem setCurBulletY_frame (p : CPlayer) (y : ℚ) :
    (p.setCurBulletY y).m_pSprite = p.m_pSprite ∧
      (p.setCurBulletY y).playerLives = p.playerLives := by
  unfold CPlayer.setCurBulletY
  cases p.bullets.getLast? <;> exact ⟨rfl, rfl⟩

theorem bulletCollision_frame (p1 p2 : CPlayer) (x : Int) :
    (bulletCollision p1 p2 x).2.m_pSprite = p1.m_pSprite ∧
      (bulletCollision p1 p2 x).2.playerLives = p1.playerLives := by
  rw [bulletCollision_state]
  by_cases h : (bulletCollision p1 p2 x).1 = true
  · rw [if_pos h]
    exact setCurBulletY_frame _ _
  · rw [if_neg h]
    exact ⟨rfl, rfl⟩

theorem Draw_curBullet (p : CPlayer) : (Draw p).curBullet = p.curBullet := by
  unfold CPlayer.curBullet
  rw [(Draw_frame p).2.1, (Draw_frame p).2.2.1]

/-- The test `DrawObjects` makes of the last projectile of player 2 against
player 1. -/
theorem DrawObjects_hit_on_player1 (app : CGameApp) :
    (bulletCollision
        (if (bulletCollision (Draw app.m_pPlayer) (Draw app.m_pPlayer2) 1).1 then
          DecreaseLives (Explode (Draw app.m_pPlayer2)) else Draw app.m_pPlayer2)
        (bulletCollision (Draw app.m_pPlayer) (Draw app.m_pPlayer2) 1).2 2).1 =
      (overlapTest (spriteRect app.m_pPlayer.m_pSprite) (spriteRect app.m_pPlayer2.curBullet) ||
        mirroredTest (spriteRect app.m_pPlayer.m_pSprite)
          (spriteRect app.m_pPlayer2.curBullet)) := by
  rw [bulletCollision_result, (bulletCollision_frame _ _ _).1, (Draw_frame _).1]
  have hc : (if (bulletCollision (Draw app.m_pPlayer) (Draw app.m_pPlayer2) 1).1 then
      DecreaseLives (Explode (Draw app.m_pPlayer2)) else Draw app.m_pPlayer2).curBullet
      = app.m_pPlayer2.curBullet := by
    split_ifs
    · exact Draw_curBullet _
    · exact Draw_curBullet _
  rw [hc]

/-- Lives of player 1 after `DrawObjects`: one less when the last projectile
of player 2 passes the test against player 1, unchanged otherwise. -/
theorem DrawObjects_lives1 (app : CGameApp) :
    (DrawObjects app).m_pPlayer.playerLives =
      if (overlapTest (spriteRect app.m_pPlayer.m_pSprite) (spriteRect app.m_pPlayer2.curBullet) ||
          mirroredTest (spriteRect app.m_pPlayer.m_pSprite)
            (spriteRect app.m_pPlayer2.curBullet)) = true
      then app.m_pPlayer.playerLives - 1 else app.m_pPlayer.playerLives := by
  have hhit := DrawObjects_hit_on_player1 app
  have hl : (bulletCollision (Draw app.m_pPlayer) (Draw app.m_pPlayer2) 1).2.playerLives
      = app.m_pPlayer.playerLives := by
    rw [(bulletCollision_frame _ _ _).2, (Draw_frame _).2.2.2]
  unfold DrawObjects
  simp only [hhit]
  split_ifs <;> simp [fire, DecreaseLives, Explode, hl]

theorem DrawObjects_flags (app : CGameApp) :
    (DrawObjects app).m_bActive = app.m_bActive ∧
      (DrawObjects app).quitPosted = app.quitPosted := ⟨rfl, rfl⟩

theorem ProcessInput_flags (env : Env) (keys : Option (Nat → Nat)) (app : CGameApp) :
    (ProcessInput env keys app).m_bActive = app.m_bActive ∧
      (ProcessInput env keys app).quitPosted = app.quitPosted := by
  cases keys <;> exact ⟨rfl, rfl⟩

theorem gameOverCheck_signal (app : CGameApp) :
    (gameOverCheck app).1 =
      if app.m_pPlayer.playerLives = 0 then some GameOver.SecondPlayerWins
      else if app.m_pPlayer2.playerLives = 0 then some GameOver.FirstPlayerWins
      else none := by
  unfold gameOverCheck GetLives
  split_ifs <;> rfl

theorem gameOverCheck_quit (app : CGameApp) :
    (gameOverCheck app).2.quitPosted = ((gameOverCheck app).1.isSome || app.quitPosted) := by
  unfold gameOverCheck
  split_ifs <;> simp

theorem FrameAdvance_signal (env : Env) (inp : FrameInput) (app : CGameApp)
    (hact : app.m_bActive = true) :
    (FrameAdvance env inp app).1 = (gameOverCheck app).1 := by
  simp [FrameAdvance, hact]

theorem FrameAdvance_quit (env : Env) (inp : FrameInput) (app : CGameApp) :
    (FrameAdvance env inp app).2.quitPosted =
      ((FrameAdvance env inp app).1.isSome || app.quitPosted) := by
  unfold FrameAdvance
  by_cases hact : app.m_bActive = true
  · simp only [hact, Bool.not_true, Bool.false_eq_true, if_false]
    rw [(DrawObjects_flags _).2]
    show (ProcessInput env inp.keys (gameOverCheck app).2).quitPosted = _
    rw [(ProcessInput_flags _ _ _).2, gameOverCheck_quit]
  · simp [hact]

/-- No window message withdraws a quit request. -/
theorem DisplayWndProc_quit (env : Env) (m : Msg) (app : CGameApp)
    (hq : app.quitPosted = true) : (DisplayWndProc env m app).quitPosted = true := by
  cases m with
  | WM_CLOSE => rfl
  | WM_DESTROY => rfl
  | WM_SIZE w =>
    show (if w = SIZE_MINIMIZED then ({ app with m_bActive := false } : CGameApp)
      else { app with m_bActive := true }).quitPosted = true
    split_ifs <;> exact hq
  | WM_KEYDOWN w =>
    show (onKeyDown env w app).quitPosted = true
    unfold onKeyDown
    split_ifs <;> first | rfl | exact hq
  | WM_TIMER w =>
    show (onTimer w app).quitPosted = true
    unfold onTimer
    simp only []
    split_ifs <;> exact hq
  | other => exact hq

/-- Once `PostQuitMessage` has been called the loop of `BeginGame` shows no
game-over message box any more. -/
theorem BeginGame_after_quit (env : Env) (ts : List Tick) (app : CGameApp)
    (hq : app.quitPosted = true) : (BeginGame env ts app).1 = [] := by
  induction ts generalizing app with
  | nil => rfl
  | cons t ts ih =>
    cases t with
    | message m => exact ih _ (DisplayWndProc_quit env m app hq)
    | idle inp => simp [BeginGame, hq]

/-! ## Frame update: specification properties -/

/-- C11 (the code departs from the claim): lives do go below 0.  From a new
game, four `WM_KEYDOWN` messages for the Return key leave player 1 with
`-1` lives, and the loop of `BeginGame` that dispatches them and then
advances a frame shows no game-over message box; and in a frame that starts
with player 1 at 0 lives and the projectile of player 2 on it, game over is
signalled and the frame still runs `DrawObjects`, which leaves player 1 with
`-1` lives. -/
theorem C11_lives_go_negative :
    (CGameApp.start exampleEnv).m_pPlayer.playerLives = 3 ∧
      (dispatchAll exampleEnv exampleFourReturns (CGameApp.start exampleEnv)).m_pPlayer.playerLives
        = -1 ∧
      (BeginGame exampleEnv
          (exampleFourReturns.map Tick.message ++ [Tick.idle exampleQuietFrame])
          (CGameApp.start exampleEnv)).1 = [] ∧
      (BeginGame exampleEnv
          (exampleFourReturns.map Tick.message ++ [Tick.idle exampleQuietFrame])
          (CGameApp.start exampleEnv)).2.m_pPlayer.playerLives = -1 ∧
      (FrameAdvance exampleEnv exampleQuietFrame exampleNoLife).1
        = some GameOver.SecondPlayerWins ∧
      (FrameAdvance exampleEnv exampleQuietFrame exampleNoLife).2.m_pPlayer.playerLives = -1 := by
  refine ⟨?_, ?_, ?_, ?_, ?_, ?_⟩ <;> decide!

/-- C12: in every active frame update, the game-over message names player 2
the winner if the lives of player 1 equal 0, names player 1 the winner if the
lives of player 2 equal 0 and those of player 1 do not, and no game-over
message is shown if neither equals 0.  When player 1 has 1 life and the last
projectile of player 2 passes the collision test against player 1 in
`DrawObjects`, player 1 is left with 0 lives and the next frame update
signals that player 2 wins. -/
theorem C12_winner_naming (env : Env) (inp : FrameInput) (app : CGameApp)
    (hact : app.m_bActive = true) :
    (FrameAdvance env inp app).1 =
        (if app.m_pPlayer.playerLives = 0 then some GameOver.SecondPlayerWins
         else if app.m_pPlayer2.playerLives = 0 then some GameOver.FirstPlayerWins
         else none) ∧
      (app.m_pPlayer.playerLives = 1 →
        (overlapTest (spriteRect app.m_pPlayer.m_pSprite)
            (spriteRect app.m_pPlayer2.curBullet) ||
          mirroredTest (spriteRect app.m_pPlayer.m_pSprite)
            (spriteRect app.m_pPlayer2.curBullet)) = true →
        (DrawObjects app).m_pPlayer.playerLives = 0 ∧
          ∀ next : FrameInput,
            (FrameAdvance env next (DrawObjects app)).1 = some GameOver.SecondPlayerWins) := by
  refine ⟨?_, ?_⟩
  · rw [FrameAdvance_signal env inp app hact, gameOverCheck_signal]
  · intro h1 hhit
    have h0 : (DrawObjects app).m_pPlayer.playerLives = 0 := by
      rw [DrawObjects_lives1, if_pos hhit, h1]
      rfl
    refine ⟨h0, fun next => ?_⟩
    rw [FrameAdvance_signal env next _ (by rw [(DrawObjects_flags app).1]; exact hact),
      gameOverCheck_signal, if_pos h0]

/-- Witness for C12: player 1 on its last life, with the projectile of
player 2 inside its box. -/
theorem C12_winner_naming_witness :
    exampleLastLife.m_bActive = true ∧ exampleLastLife.m_pPlayer.playerLives = 1 ∧
      (DrawObjects exampleLastLife).m_pPlayer.playerLives = 0 ∧
      (FrameAdvance exampleEnv exampleQuietFrame (DrawObjects exampleLastLife)).1
        = some GameOver.SecondPlayerWins :=
  have h := (C12_winner_naming exampleEnv exampleQuietFrame exampleLastLife (by decide)).2
    (by decide) (by decide!)
  ⟨by decide, by decide, h.1, h.2 exampleQuietFrame⟩

/-- C13 (the code departs from the claim): a frame update that starts with
player 1 at 0 lives signals game over and calls `PostQuitMessage`, but there
is no `return` after that branch and the rest of the frame still runs: with
the Left arrow down, player 1 leaves the frame with X velocity `-1.1`
(input and movement ran) and with its cooldown lowered from 30 to 29
(drawing ran), so its state is changed by that frame.  The other half of the
claim holds: the loop of `BeginGame`, given three idle turns, shows the
game-over box once. -/
theorem C13_game_over_frame_still_runs :
    exampleGameOver.m_bActive = true ∧
      exampleGameOver.m_pPlayer.playerLives = 0 ∧
      (FrameAdvance exampleEnv exampleLeftFrame exampleGameOver).1
        = some GameOver.SecondPlayerWins ∧
      (FrameAdvance exampleEnv exampleLeftFrame exampleGameOver).2.quitPosted = true ∧
      exampleGameOver.m_pPlayer.m_pSprite.mVelocity.x = 0 ∧
      (FrameAdvance exampleEnv exampleLeftFrame exampleGameOver).2.m_pPlayer.m_pSprite.mVelocity.x
        = -(11 / 10) ∧
      exampleGameOver.m_pPlayer.fireCooldown = 30 ∧
      (FrameAdvance exampleEnv exampleLeftFrame exampleGameOver).2.m_pPlayer.fireCooldown = 29 ∧
      (FrameAdvance exampleEnv exampleLeftFrame exampleGameOver).2.m_pPlayer
        ≠ exampleGameOver.m_pPlayer ∧
      (BeginGame exampleEnv
          [Tick.idle exampleLeftFrame, Tick.idle exampleLeftFrame, Tick.idle exampleLeftFrame]
          exampleGameOver).1 = [GameOver.SecondPlayerWins] := by
  refine ⟨?_, ?_, ?_, ?_, ?_, ?_, ?_, ?_, ?_, ?_⟩ <;> decide!

/-- In every active frame update in which the lives of a player equal 0 the
game-over message is shown and `PostQuitMessage` is called; and over every
run of the main loop, from any state, at most one game-over message is
shown, because the loop calls no frame update after `PostQuitMessage`. -/
theorem game_over_at_most_once (env : Env) (inp : FrameInput) (app : CGameApp)
    (ticks : List Tick) :
    (app.m_bActive = true →
        app.m_pPlayer.playerLives = 0 ∨ app.m_pPlayer2.playerLives = 0 →
        (FrameAdvance env inp app).1.isSome = true ∧
          (FrameAdvance env inp app).2.quitPosted = true) ∧
      (BeginGame env ticks app).1.length ≤ 1 := by
  constructor
  · intro hact hzero
    have hs : (FrameAdvance env inp app).1.isSome = true := by
      rw [FrameAdvance_signal env inp app hact, gameOverCheck_signal]
      rcases hzero with h | h
      · simp [h]
      · by_cases h1 : app.m_pPlayer.playerLives = 0 <;> simp [h, h1]
    refine ⟨hs, ?_⟩
    rw [FrameAdvance_quit, hs]
    rfl
  · induction ticks generalizing app with
    | nil => simp [BeginGame]
    | cons t ts ih =>
      cases t with
      | message m => exact ih _
      | idle inp2 =>
        by_cases hq : app.quitPosted = true
        · simp [BeginGame, hq]
        · simp only [BeginGame, hq, Bool.false_eq_true, if_false, List.length_append]
          cases hsig : (FrameAdvance env inp2 app).1 with
          | none =>
            simpa using ih (FrameAdvance env inp2 app).2
          | some g =>
            have hquit : (FrameAdvance env inp2 app).2.quitPosted = true := by
              rw [FrameAdvance_quit, hsig]
              rfl
            rw [BeginGame_after_quit env ts _ hquit]
            simp

/-- An instance of `game_over_at_most_once`: the frame update on the game with
player 1 at 0 lives. -/
theorem game_over_at_most_once_example :
    exampleGameOver.m_bActive = true ∧ exampleGameOver.m_pPlayer.playerLives = 0 ∧
      (FrameAdvance exampleEnv exampleLeftFrame exampleGameOver).1.isSome = true ∧
      (FrameAdvance exampleEnv exampleLeftFrame exampleGameOver).2.quitPosted = true :=
  have h := (game_over_at_most_once exampleEnv exampleLeftFrame exampleGameOver []).1
    (by decide) (Or.inl (by decide))
  ⟨by decide, by decide, h.1, h.2⟩

/-! ## Persistence: lemmas on the text format -/

/-- C15 (the code departs from the claim): `LoadGame` never tests the stream.
With `save.txt` missing or empty no extraction stores anything, and the
players are given the indeterminate values of the uninitialised locals as
lives and `(0, 0)` as position; with the malformed text `abc` the first
extraction stores 0 and the others store nothing.  Player 1 of a new game,
at `(100, 400)` with 3 lives, is at `(0, 0)` after a load from a missing
file. -/
theorem C15_failed_load_overwrites (env : Env) (p1 p2 : CPlayer) :
    LoadGame env none p1 p2 =
        (SetPosition (SetLives p1 env.uninit1) ⟨0, 0⟩,
          SetPosition (SetLives p2 env.uninit2) ⟨0, 0⟩) ∧
      LoadGame env (some []) p1 p2 =
        (SetPosition (SetLives p1 env.uninit1) ⟨0, 0⟩,
          SetPosition (SetLives p2 env.uninit2) ⟨0, 0⟩) ∧
      LoadGame env (some ['a', 'b', 'c']) p1 p2 =
        (SetPosition (SetLives p1 0) ⟨0, 0⟩,
          SetPosition (SetLives p2 env.uninit2) ⟨0, 0⟩) ∧
      examplePlayer1.m_pSprite.mPosition = ⟨100, 400⟩ ∧
      (LoadGame exampleEnv none examplePlayer1 examplePlayer2).1.m_pSprite.mPosition = ⟨0, 0⟩ ∧
      (LoadGame exampleEnv none examplePlayer1 examplePlayer2).1.m_pSprite.mPosition
        ≠ examplePlayer1.m_pSprite.mPosition ∧
      examplePlayer1.playerLives = 3 ∧
      (LoadGame exampleEnv none examplePlayer1 examplePlayer2).1.playerLives = -858993460 := by
  refine ⟨rfl, rfl, ?_, ?_, ?_, ?_, ?_, ?_⟩
  · simp [LoadGame, getInt, getDouble, skipWs, isSpace, getSign, getDigits]
  all_goals decide!

end CG
